import Mathlib

/-!
Verification development for the krypt signal engine
(`src/types.rs`, `src/scoring.rs`, `src/engine.rs`, `src/detection.rs`,
`src/telegram.rs`).

Embedding conventions:
* `f64` values are embedded as `ℚ`; float literals such as `0.999` become
  the exact rationals they denote in the source text.
* Numeric fields that arrive as strings (and are parsed with
  `str::parse::<f64>`) are embedded as `Option ℚ`, the result of the
  parse: `none` models an unparseable field, `some q` a field parsing
  to `q`.  Rust's `unwrap_or(0.0)` becomes `Option.getD · 0`.
* `current_timestamp()` is a side effect in the source; every operation
  that reads the clock takes the current time `now : Timestamp`
  explicitly.
* `HashMap<String, SymbolData>` is embedded as an association list
  `List (String × SymbolData)`; `Vec`/`VecDeque` become `List`.
* `f64::log10`, used only inside `calculate_volume_score`, is kept as an
  explicit function parameter `log10 : ℚ → ℚ` (the clamping properties
  proved below hold for every choice of it).
* Field `volume_ratio` of `AlertDetails` is embedded as
  `volume_ratio_val`, and `volume_spike_ratio` of `DetectionConfig` as
  `volume_spike_min` (same meaning, renamed for this development).
-/

namespace Krypt

abbrev Timestamp := Nat

inductive Tier where
  | Tier1
  | Tier2
  | Ignored
deriving DecidableEq, Repr

inductive MarketState where
  | Idle
  | Accumulation
  | BreakoutLong
  | Distribution
  | BreakdownShort
  | PumpDetected
  | DumpDetected
deriving DecidableEq, Repr

inductive AlertType where
  | PumpDetected
  | DumpDetected
  | AccumulationDetected
  | DistributionDetected
  | LongSetupConfirmed
  | ShortSetupConfirmed
deriving DecidableEq, Repr

structure AlertDetails where
  price_change_pct : Option ℚ
  volume_ratio_val : Option ℚ
  cvd_change : Option ℚ
  timeframe : Option String
deriving DecidableEq, Repr

/-- `Alert` from `src/types.rs`.  The `exchange` field of the struct is
set only by callers outside the verified core (the detector in
`src/detection.rs` builds alerts without it) and is not modelled. -/
structure Alert where
  alert_type : AlertType
  symbol : String
  price : ℚ
  details : AlertDetails
  timestamp : Timestamp
deriving DecidableEq, Repr

/-- `SymbolData` from `src/types.rs`. -/
structure SymbolData where
  symbol : String
  price : ℚ
  price_change_pct_24h : ℚ
  volume_24h : ℚ
  quote_volume_24h : ℚ
  trades_24h : Nat
  high_24h : ℚ
  low_24h : ℚ
  open_24h : ℚ
  score : ℚ
  tier : Tier
  cvd : ℚ
  cvd_history : List (Timestamp × ℚ)
  price_window : List (Timestamp × ℚ)
  volume_window : List (Timestamp × ℚ)
  state : MarketState
  last_alert_time : Option Timestamp
  last_update_time : Timestamp
  accumulation_start : Option Timestamp
  accumulation_high : Option ℚ
  accumulation_low : Option ℚ
  distribution_start : Option Timestamp
  distribution_high : Option ℚ
  distribution_low : Option ℚ
deriving DecidableEq, Repr

/-- `SymbolData::new`; `now` is the `current_timestamp()` value read by
the constructor. -/
def SymbolData.new (symbol : String) (now : Timestamp) : SymbolData where
  symbol := symbol
  price := 0
  price_change_pct_24h := 0
  volume_24h := 0
  quote_volume_24h := 0
  trades_24h := 0
  high_24h := 0
  low_24h := 0
  open_24h := 0
  score := 0
  tier := .Ignored
  cvd := 0
  cvd_history := []
  price_window := []
  volume_window := []
  state := .Idle
  last_alert_time := none
  last_update_time := now
  accumulation_start := none
  accumulation_high := none
  accumulation_low := none
  distribution_start := none
  distribution_high := none
  distribution_low := none

/-- `TickerData` from `src/types.rs`: all numeric fields are transmitted
as strings; each is embedded as its parse result. -/
structure TickerData where
  symbol : String
  current_price : Option ℚ
  price_change : Option ℚ
  price_change_percent : Option ℚ
  volume : Option ℚ
  quote_volume : Option ℚ
  open_price : Option ℚ
  high_price : Option ℚ
  low_price : Option ℚ
  number_of_trades : Nat
deriving DecidableEq, Repr

/-- `TradeData` from `src/types.rs`; `price` and `quantity` are string
fields embedded as parse results. -/
structure TradeData where
  symbol : String
  price : Option ℚ
  quantity : Option ℚ
  is_buyer_maker : Bool
  trade_time : Nat
deriving DecidableEq, Repr

structure ScoringWeights where
  volume_weight : ℚ
  volatility_weight : ℚ
  activity_weight : ℚ
deriving DecidableEq, Repr

structure ScoringConfig where
  tier1_threshold : ℚ
  tier2_threshold : ℚ
  max_tier1_symbols : Nat
  rescore_interval_secs : Nat
  weights : ScoringWeights
deriving DecidableEq, Repr

structure FilterConfig where
  min_quote_volume : ℚ
  min_price : ℚ
  min_trades_24h : Nat
  stale_data_threshold_secs : Nat
deriving DecidableEq, Repr

/-- `DetectionConfig`; `volume_spike_ratio` is embedded as
`volume_spike_min`. -/
structure DetectionConfig where
  pump_threshold_pct : ℚ
  dump_threshold_pct : ℚ
  accumulation_range_pct : ℚ
  volume_spike_min : ℚ
  breakout_threshold_pct : ℚ
  window_size_secs : Nat
  accumulation_window_secs : Nat
  distribution_window_secs : Nat
deriving DecidableEq, Repr

structure PerformanceConfig where
  price_window_size : Nat
  cvd_history_size : Nat
deriving DecidableEq, Repr

/-- The part of `Config` consumed by the verified core. -/
structure Config where
  filters : FilterConfig
  scoring : ScoringConfig
  detection : DetectionConfig
  performance : PerformanceConfig
deriving DecidableEq, Repr

/-- `f64::clamp(min, max)`: `if self < min { min } else if self > max
{ max } else { self }`. -/
def clampQ (x lo hi : ℚ) : ℚ :=
  if x < lo then lo else if x > hi then hi else x

/-- `Scorer::calculate_volume_score`.  `log10` is the embedding of
`f64::log10`, applied only to the strictly positive
`volume_millions`. -/
def calculate_volume_score (log10 : ℚ → ℚ) (quote_volume : ℚ) : ℚ :=
  if quote_volume ≤ 0 then 0
  else clampQ (log10 (quote_volume / 1000000) / 3) 0 1

/-- `Scorer::calculate_volatility_score`. -/
def calculate_volatility_score (price_change_pct : ℚ) : ℚ :=
  clampQ (|price_change_pct| / 10) 0 1

/-- `Scorer::calculate_activity_score`. -/
def calculate_activity_score (trades_24h : Nat) : ℚ :=
  clampQ ((trades_24h : ℚ) / 10000) 0 1

/-- `Scorer::calculate_score`. -/
def calculate_score (cfg : ScoringConfig) (log10 : ℚ → ℚ)
    (s : SymbolData) : ℚ :=
  let volume_score := calculate_volume_score log10 s.quote_volume_24h
  let volatility_score := calculate_volatility_score s.price_change_pct_24h
  let activity_score := calculate_activity_score s.trades_24h
  let w := cfg.weights
  clampQ (w.volume_weight * volume_score
    + w.volatility_weight * volatility_score
    + w.activity_weight * activity_score) 0 1

/-- `Scorer::assign_tier`. -/
def assign_tier (cfg : ScoringConfig) (score : ℚ) : Tier :=
  if score ≥ cfg.tier1_threshold then .Tier1
  else if score ≥ cfg.tier2_threshold then .Tier2
  else .Ignored

/-- `Scorer::select_tier1_symbols`: stable sort descending by score,
filter to scores meeting the tier-1 threshold, take the first
`max_tier1_symbols`, return the symbol names.  `Vec::sort_by` is a
stable sort, matched here by `List.mergeSort`. -/
def select_tier1_symbols (cfg : ScoringConfig)
    (symbols : List SymbolData) : List String :=
  let sorted := symbols.mergeSort (fun a b => b.score ≤ a.score)
  ((sorted.filter (fun s => s.score ≥ cfg.tier1_threshold)).take
    cfg.max_tier1_symbols).map (·.symbol)

/-- The repeated source idiom
`window.iter().filter(|(ts, _)| *ts >= window_start).map(|(_, v)| *v)`. -/
def samples_from (window : List (Timestamp × ℚ))
    (window_start : Timestamp) : List ℚ :=
  (window.filter (fun p => window_start ≤ p.1)).map (·.2)

/-- `iter().fold(f64::NEG_INFINITY, f64::max)`: `none` stands for the
fold returning `-∞` on an empty list. -/
def list_max? : List ℚ → Option ℚ
  | [] => none
  | h :: t => some (t.foldl max h)

/-- `iter().fold(f64::INFINITY, f64::min)`: `none` stands for `+∞`. -/
def list_min? : List ℚ → Option ℚ
  | [] => none
  | h :: t => some (t.foldl min h)

/-- `Detector::calculate_volume_ratio` (recent average volume over the
per-second 24h baseline). -/
def volume_ratio_at (s : SymbolData) (window_start : Timestamp) : ℚ :=
  let recent_volumes := samples_from s.volume_window window_start
  if recent_volumes.isEmpty then 0
  else
    let recent_avg := recent_volumes.sum / (recent_volumes.length : ℚ)
    let baseline_volume := s.quote_volume_24h / (24 * 3600)
    if baseline_volume = 0 then 0
    else recent_avg / baseline_volume

/-- `Detector::calculate_cvd_slope` (last minus first CVD value in the
window). -/
def cvd_slope_at (s : SymbolData) (window_start : Timestamp) : ℚ :=
  let recent_cvd := s.cvd_history.filter (fun p => window_start ≤ p.1)
  if recent_cvd.length < 2 then 0
  else (recent_cvd.getLastD (0, 0)).2 - (recent_cvd.headD (0, 0)).2

/-- `Detector::calculate_price_trend`. -/
def price_trend_at (s : SymbolData) (window_start : Timestamp) : ℚ :=
  let recent_prices := samples_from s.price_window window_start
  if recent_prices.length < 2 then 0
  else ((recent_prices.getLastD 0 - recent_prices.headD 0)
    / recent_prices.headD 0) * 100

/-- `Detector::is_new_high`: price within 0.1% of the window maximum
(`u64` subtraction `now.saturating_sub` is `Nat` subtraction). -/
def is_new_high (now : Timestamp) (s : SymbolData)
    (window_secs : Nat) : Bool :=
  match list_max? (samples_from s.price_window (now - window_secs)) with
  | none => true
  | some max_price => s.price ≥ max_price * (999 / 1000)

/-- `Detector::is_new_low`: price within 0.1% of the window minimum. -/
def is_new_low (now : Timestamp) (s : SymbolData)
    (window_secs : Nat) : Bool :=
  match list_min? (samples_from s.price_window (now - window_secs)) with
  | none => true
  | some min_price => s.price ≤ min_price * (1001 / 1000)

/-- `Detector::detect_pump`. -/
def detect_pump (cfg : DetectionConfig) (now : Timestamp)
    (s : SymbolData) : Option Alert :=
  let window_start := now - cfg.window_size_secs
  let recent_prices := samples_from s.price_window window_start
  if recent_prices.length < 10 then none
  else
    let oldest_price := recent_prices.headD 0
    let current_price := s.price
    let price_change_pct := ((current_price - oldest_price) / oldest_price) * 100
    if price_change_pct < cfg.pump_threshold_pct then none
    else
      let vr := volume_ratio_at s window_start
      if vr < cfg.volume_spike_min then none
      else if is_new_high now s 300 then
        some { alert_type := .PumpDetected, symbol := s.symbol,
               price := current_price,
               details := { price_change_pct := some price_change_pct,
                            volume_ratio_val := some vr, cvd_change := none,
                            timeframe := some "60s" },
               timestamp := now }
      else none

/-- `Detector::detect_dump`. -/
def detect_dump (cfg : DetectionConfig) (now : Timestamp)
    (s : SymbolData) : Option Alert :=
  let window_start := now - cfg.window_size_secs
  let recent_prices := samples_from s.price_window window_start
  if recent_prices.length < 10 then none
  else
    let oldest_price := recent_prices.headD 0
    let current_price := s.price
    let price_change_pct := ((current_price - oldest_price) / oldest_price) * 100
    if price_change_pct > cfg.dump_threshold_pct then none
    else
      let vr := volume_ratio_at s window_start
      if vr < cfg.volume_spike_min then none
      else if is_new_low now s 300 then
        some { alert_type := .DumpDetected, symbol := s.symbol,
               price := current_price,
               details := { price_change_pct := some price_change_pct,
                            volume_ratio_val := some vr, cvd_change := none,
                            timeframe := some "60s" },
               timestamp := now }
      else none

/-- `Detector::detect_accumulation`. -/
def detect_accumulation (cfg : DetectionConfig) (now : Timestamp)
    (s : SymbolData) : Option Alert :=
  let window_start := now - cfg.accumulation_window_secs
  let recent_prices := samples_from s.price_window window_start
  if recent_prices.length < 20 then none
  else
    let max_price := (list_max? recent_prices).getD 0
    let min_price := (list_min? recent_prices).getD 0
    let price_range_pct := ((max_price - min_price) / s.price) * 100
    if price_range_pct ≥ cfg.accumulation_range_pct then none
    else
      let cvd_slope := cvd_slope_at s window_start
      if cvd_slope ≤ 0 then none
      else
        let vr := volume_ratio_at s window_start
        if vr < 3 / 2 then none
        else if is_new_low now s cfg.accumulation_window_secs then none
        else
          some { alert_type := .AccumulationDetected, symbol := s.symbol,
                 price := s.price,
                 details := { price_change_pct := some price_range_pct,
                              volume_ratio_val := some vr,
                              cvd_change := some cvd_slope,
                              timeframe := some "2m" },
                 timestamp := now }

/-- `Detector::detect_distribution`. -/
def detect_distribution (cfg : DetectionConfig) (now : Timestamp)
    (s : SymbolData) : Option Alert :=
  let window_start := now - cfg.distribution_window_secs
  let recent_prices := samples_from s.price_window window_start
  if recent_prices.length < 30 then none
  else
    let price_trend := price_trend_at s window_start
    if price_trend > 1 / 10 then none
    else
      let cvd_slope := cvd_slope_at s window_start
      if cvd_slope > 0 then none
      else
        let vr := volume_ratio_at s window_start
        if vr < 3 / 2 then none
        else
          some { alert_type := .DistributionDetected, symbol := s.symbol,
                 price := s.price,
                 details := { price_change_pct := none,
                              volume_ratio_val := some vr,
                              cvd_change := some cvd_slope,
                              timeframe := some "3m" },
                 timestamp := now }

/-- `Detector::detect_breakout_long`. -/
def detect_breakout_long (cfg : DetectionConfig) (now : Timestamp)
    (s : SymbolData) : Option Alert :=
  match s.accumulation_high with
  | none => none
  | some accumulation_high =>
    let breakout_threshold :=
      accumulation_high * (1 + cfg.breakout_threshold_pct / 100)
    if s.price < breakout_threshold then none
    else
      let window_start := now - 30
      let vr := volume_ratio_at s window_start
      if vr < cfg.volume_spike_min then none
      else
        let cvd_slope := cvd_slope_at s window_start
        if cvd_slope ≤ 0 then none
        else
          some { alert_type := .LongSetupConfirmed, symbol := s.symbol,
                 price := s.price,
                 details := { price_change_pct := some
                                (((s.price - accumulation_high)
                                  / accumulation_high) * 100),
                              volume_ratio_val := some vr,
                              cvd_change := some cvd_slope,
                              timeframe := some "breakout" },
                 timestamp := now }

/-- `Detector::detect_breakdown_short`. -/
def detect_breakdown_short (cfg : DetectionConfig) (now : Timestamp)
    (s : SymbolData) : Option Alert :=
  match s.distribution_low with
  | none => none
  | some distribution_low =>
    let breakdown_threshold :=
      distribution_low * (1 - cfg.breakout_threshold_pct / 100)
    if s.price > breakdown_threshold then none
    else
      let window_start := now - 30
      let vr := volume_ratio_at s window_start
      if vr < cfg.volume_spike_min then none
      else
        let cvd_slope := cvd_slope_at s window_start
        if cvd_slope ≥ 0 then none
        else
          some { alert_type := .ShortSetupConfirmed, symbol := s.symbol,
                 price := s.price,
                 details := { price_change_pct := some
                                (((s.price - distribution_low)
                                  / distribution_low) * 100),
                              volume_ratio_val := some vr,
                              cvd_change := some cvd_slope,
                              timeframe := some "breakdown" },
                 timestamp := now }

/-- `Detector::should_reset_state` (5-minute timeout in
`BreakoutLong`/`BreakdownShort`). -/
def should_reset_state (now : Timestamp) (s : SymbolData) : Bool :=
  match s.state with
  | .BreakoutLong =>
    match s.accumulation_start with
    | some start => now - start > 300
    | none => false
  | .BreakdownShort =>
    match s.distribution_start with
    | some start => now - start > 300
    | none => false
  | _ => false

/-- `Detector::detect`: the main entry point.  The source mutates
`symbol` in place; here the updated `SymbolData` is returned together
with the produced alerts (in push order: momentum alert first). -/
def detect (cfg : DetectionConfig) (now : Timestamp)
    (s0 : SymbolData) : SymbolData × List Alert :=
  let momentum : SymbolData × List Alert :=
    match detect_pump cfg now s0 with
    | some alert => ({ s0 with state := .PumpDetected }, [alert])
    | none =>
      match detect_dump cfg now s0 with
      | some alert => ({ s0 with state := .DumpDetected }, [alert])
      | none => (s0, [])
  let s1 := momentum.1
  let alerts := momentum.2
  if s1.cvd_history.isEmpty then (s1, alerts)
  else
    match s1.state with
    | .Idle | .PumpDetected | .DumpDetected =>
      match detect_accumulation cfg now s1 with
      | some alert =>
        ({ s1 with state := .Accumulation,
                   accumulation_start := some now,
                   accumulation_high := some s1.price,
                   accumulation_low := some s1.price },
         alerts ++ [alert])
      | none =>
        match detect_distribution cfg now s1 with
        | some alert =>
          ({ s1 with state := .Distribution,
                     distribution_start := some now,
                     distribution_high := some s1.price,
                     distribution_low := some s1.price },
           alerts ++ [alert])
        | none => (s1, alerts)
    | .Accumulation =>
      let s2 := { s1 with
        accumulation_high := s1.accumulation_high.map (fun h => max h s1.price),
        accumulation_low := s1.accumulation_low.map (fun l => min l s1.price) }
      match detect_breakout_long cfg now s2 with
      | some alert => ({ s2 with state := .BreakoutLong }, alerts ++ [alert])
      | none => (s2, alerts)
    | .Distribution =>
      let s2 := { s1 with
        distribution_high := s1.distribution_high.map (fun h => max h s1.price),
        distribution_low := s1.distribution_low.map (fun l => min l s1.price) }
      match detect_breakdown_short cfg now s2 with
      | some alert => ({ s2 with state := .BreakdownShort }, alerts ++ [alert])
      | none => (s2, alerts)
    | .BreakoutLong =>
      if should_reset_state now s1 then
        ({ s1 with state := .Idle, accumulation_start := none,
                   accumulation_high := none, accumulation_low := none },
         alerts)
      else (s1, alerts)
    | .BreakdownShort =>
      if should_reset_state now s1 then
        ({ s1 with state := .Idle, distribution_start := none,
                   distribution_high := none, distribution_low := none },
         alerts)
      else (s1, alerts)

/-- `SignalEngine` (the `scorer` and `detector` members only carry
their configs, so only `config` and the symbol table are modelled). -/
structure SignalEngine where
  config : Config
  symbols : List (String × SymbolData)
deriving DecidableEq, Repr

def SignalEngine.new (config : Config) : SignalEngine :=
  { config := config, symbols := [] }

/-- `SignalEngine::passes_hard_filters`.  `str::ends_with` is modelled
on the character data of the string. -/
def passes_hard_filters (cfg : FilterConfig) (ticker : TickerData) : Bool :=
  if "USDT".data.isSuffixOf ticker.symbol.data then
    match ticker.quote_volume with
    | none => false
    | some quote_volume =>
      match ticker.current_price with
      | none => false
      | some current_price =>
        if quote_volume < cfg.min_quote_volume then false
        else if current_price < cfg.min_price then false
        else if ticker.number_of_trades < cfg.min_trades_24h then false
        else true
  else false

/-- `push_back` followed by `while len > cap { pop_front() }`. -/
def push_trim (cap : Nat) (l : List (Timestamp × ℚ))
    (x : Timestamp × ℚ) : List (Timestamp × ℚ) :=
  let pushed := l ++ [x]
  pushed.drop (pushed.length - cap)

/-- `SignalEngine::update_symbol_from_ticker`. -/
def update_symbol_from_ticker (cfg : Config) (now : Timestamp)
    (s : SymbolData) (ticker : TickerData) : SymbolData :=
  let price := ticker.current_price.getD 0
  { s with
    price := price,
    price_change_pct_24h := ticker.price_change_percent.getD 0,
    volume_24h := ticker.volume.getD 0,
    quote_volume_24h := ticker.quote_volume.getD 0,
    trades_24h := ticker.number_of_trades,
    high_24h := ticker.high_price.getD 0,
    low_24h := ticker.low_price.getD 0,
    open_24h := ticker.open_price.getD 0,
    last_update_time := now,
    price_window := (push_trim cfg.performance.price_window_size
      s.price_window (now, price)),
    volume_window := (push_trim cfg.performance.price_window_size
      s.volume_window (now, ticker.quote_volume.getD 0)) }

/-- `HashMap::entry(..).or_insert_with(SymbolData::new)` followed by a
mutation of the entry, on the association-list model. -/
def upsert_symbol (symbols : List (String × SymbolData)) (key : String)
    (now : Timestamp) (f : SymbolData → SymbolData) :
    List (String × SymbolData) :=
  match symbols with
  | [] => [(key, f (SymbolData.new key now))]
  | (k, s) :: rest =>
    if k = key then (k, f s) :: rest
    else (k, s) :: upsert_symbol rest key now f

/-- `SignalEngine::process_ticker`.  The source's return value
`tier1_symbols` is always the empty vector and is dropped here. -/
def process_ticker (e : SignalEngine) (tickers : List TickerData)
    (now : Timestamp) : SignalEngine :=
  tickers.foldl (fun acc ticker =>
    if passes_hard_filters acc.config.filters ticker then
      { acc with symbols := (upsert_symbol acc.symbols ticker.symbol now
          (fun s => update_symbol_from_ticker acc.config now s ticker)) }
    else acc) e

def lookup_symbol (e : SignalEngine) (key : String) : Option SymbolData :=
  (e.symbols.find? (fun p => p.1 == key)).map (·.2)

/-- `SignalEngine::update_cvd`. -/
def update_cvd (cfg : Config) (now : Timestamp) (s : SymbolData)
    (trade : TradeData) : SymbolData :=
  let price := trade.price.getD 0
  let quantity := trade.quantity.getD 0
  if price = 0 ∨ quantity = 0 then s
  else
    let volume_usd := price * quantity
    let delta := if trade.is_buyer_maker then -volume_usd else volume_usd
    let new_cvd := s.cvd + delta
    { s with
      cvd := new_cvd,
      cvd_history := (push_trim cfg.performance.cvd_history_size
        s.cvd_history (now, new_cvd)) }

def set_symbol (symbols : List (String × SymbolData)) (key : String)
    (s' : SymbolData) : List (String × SymbolData) :=
  symbols.map (fun p => if p.1 == key then (p.1, s') else p)

/-- `SignalEngine::process_trade`. -/
def process_trade (e : SignalEngine) (trade : TradeData)
    (now : Timestamp) : SignalEngine × List Alert :=
  match lookup_symbol e trade.symbol with
  | none => (e, [])
  | some s =>
    if s.tier ≠ .Tier1 then (e, [])
    else
      let s1 := update_cvd e.config now s trade
      let det := detect e.config.detection now s1
      ({ e with symbols := set_symbol e.symbols trade.symbol det.1 }, det.2)

/-- `SignalEngine::rescore_symbols`: evict stale snapshots, recompute
scores, select the Tier-1 set, update tiers.  Setting `state := Idle`
unconditionally in the downgrade arm is extensionally the source's
`if state != Idle { state = Idle }`. -/
def rescore_symbols (e : SignalEngine) (now : Timestamp)
    (log10 : ℚ → ℚ) : SignalEngine × List String :=
  let retained := e.symbols.filter (fun p =>
    now - p.2.last_update_time ≤ e.config.filters.stale_data_threshold_secs)
  let scored := retained.map (fun p =>
    (p.1, { p.2 with score := calculate_score e.config.scoring log10 p.2 }))
  let tier1_symbols := select_tier1_symbols e.config.scoring (scored.map (·.2))
  let updated := scored.map (fun p =>
    (p.1,
      if tier1_symbols.contains p.2.symbol then
        { p.2 with tier := Tier.Tier1 }
      else
        let tier := assign_tier e.config.scoring p.2.score
        if tier ≠ Tier.Tier1 then
          { p.2 with tier := tier, cvd := 0, cvd_history := [],
                     state := MarketState.Idle }
        else { p.2 with tier := tier }))
  ({ e with symbols := updated }, tier1_symbols)

/-- One engine-facing event: a ticker batch, a trade, or a periodic
rescore tick (each carrying the clock value at which it runs). -/
inductive EngOp where
  | tick (tickers : List TickerData) (now : Timestamp)
  | trade (t : TradeData) (now : Timestamp)
  | rescoreAt (now : Timestamp) (log10 : ℚ → ℚ)

def EngOp.apply (e : SignalEngine) : EngOp → SignalEngine
  | .tick tickers now => process_ticker e tickers now
  | .trade t now => (process_trade e t now).1
  | .rescoreAt now log10 => (rescore_symbols e now log10).1

/-- The engine state reached from `SignalEngine::new` by a sequence of
`process_ticker` / `process_trade` / `rescore_symbols` calls. -/
def run_engine (cfg : Config) (ops : List EngOp) : SignalEngine :=
  ops.foldl EngOp.apply (SignalEngine.new cfg)

/-- `TelegramConfig`: only the fields consumed by the dispatch logic
(`bot_token` / `chat_id` feed the external HTTP transport). -/
structure TelegramConfig where
  alert_cooldown_secs : Nat
  max_alerts_per_minute : Nat
deriving DecidableEq, Repr

/-- `TelegramDispatcher`: cooldown map (per `(symbol, alert type)`) and
rate-limit window, as in `src/telegram.rs`. -/
structure TelegramDispatcher where
  config : TelegramConfig
  last_alert_times : List ((String × AlertType) × Timestamp)
  alerts_this_minute : List Timestamp
deriving DecidableEq, Repr

def TelegramDispatcher.new (config : TelegramConfig) : TelegramDispatcher :=
  { config := config, last_alert_times := [], alerts_this_minute := [] }

/-- `TelegramDispatcher::check_cooldown` (`saturating_sub` is `Nat`
subtraction). -/
def check_cooldown (d : TelegramDispatcher) (alert : Alert) : Bool :=
  match (d.last_alert_times.find?
      (fun p => p.1 == (alert.symbol, alert.alert_type))).map (·.2) with
  | some last_time =>
    alert.timestamp - last_time ≥ d.config.alert_cooldown_secs
  | none => true

/-- `TelegramDispatcher::check_rate_limit`: prunes entries older than
60 s (a mutation of the window), then compares against the maximum.
Returns the dispatcher with the pruned window plus the verdict. -/
def check_rate_limit (d : TelegramDispatcher) (now : Timestamp) :
    TelegramDispatcher × Bool :=
  let pruned := d.alerts_this_minute.filter (fun ts => ts ≥ now - 60)
  ({ d with alerts_this_minute := pruned },
   pruned.length < d.config.max_alerts_per_minute)

/-- `HashMap::insert` on the association-list model of the cooldown
map. -/
def insert_cooldown (m : List ((String × AlertType) × Timestamp))
    (key : String × AlertType) (t : Timestamp) :
    List ((String × AlertType) × Timestamp) :=
  match m with
  | [] => [(key, t)]
  | (k, v) :: rest =>
    if k = key then (key, t) :: rest
    else (k, v) :: insert_cooldown rest key t

/-- `TelegramDispatcher::send_alert`.  `delivery_ok` is the outcome of
the external `send_telegram_message` HTTP call; the returned `Bool` is
`true` for `Ok(())` and `false` for `Err` (delivery failure). -/
def send_alert (d : TelegramDispatcher) (alert : Alert)
    (now : Timestamp) (delivery_ok : Bool) : TelegramDispatcher × Bool :=
  if check_cooldown d alert = false then (d, true)
  else
    let rl := check_rate_limit d now
    if rl.2 = false then (rl.1, true)
    else if delivery_ok then
      ({ rl.1 with
         last_alert_times := (insert_cooldown rl.1.last_alert_times
           (alert.symbol, alert.alert_type) alert.timestamp),
         alerts_this_minute := rl.1.alerts_this_minute ++ [alert.timestamp] },
       true)
    else (rl.1, false)

/-- `AlertPriorityQueue::get_priority`. -/
def get_priority : AlertType → Nat
  | .LongSetupConfirmed => 10
  | .ShortSetupConfirmed => 10
  | .AccumulationDetected => 7
  | .DistributionDetected => 7
  | .PumpDetected => 5
  | .DumpDetected => 5

/-- The ordering used by `AlertPriorityQueue::sort`
(`b_priority.cmp(&a_priority)`): `a` may precede `b` exactly when
`b`'s priority does not exceed `a`'s. -/
def queue_le (a b : Alert) : Bool :=
  get_priority b.alert_type ≤ get_priority a.alert_type

structure AlertPriorityQueue where
  queue : List Alert
deriving DecidableEq, Repr

def AlertPriorityQueue.new : AlertPriorityQueue := { queue := [] }

/-- `AlertPriorityQueue::push`: append, then stable-sort the whole
vector descending by priority (`Vec::sort_by` is stable, matched by
`List.mergeSort`). -/
def AlertPriorityQueue.push (q : AlertPriorityQueue) (alert : Alert) :
    AlertPriorityQueue :=
  { queue := (q.queue ++ [alert]).mergeSort queue_le }

/-- `AlertPriorityQueue::pop`: remove from the front. -/
def AlertPriorityQueue.pop (q : AlertPriorityQueue) :
    Option Alert × AlertPriorityQueue :=
  match q.queue with
  | [] => (none, q)
  | a :: rest => (some a, { queue := rest })

inductive QOp where
  | push (alert : Alert)
  | pop
deriving DecidableEq, Repr

/-- Queue state together with the alerts dequeued so far (in dequeue
order). -/
structure QRun where
  queue : AlertPriorityQueue
  popped : List Alert
deriving DecidableEq, Repr

def QRun.step (st : QRun) : QOp → QRun
  | .push a => { st with queue := st.queue.push a }
  | .pop =>
    match st.queue.pop with
    | (some a, q') => { queue := q', popped := st.popped ++ [a] }
    | (none, q') => { queue := q', popped := st.popped }

/-- Run a sequence of push/pop operations from the empty queue. -/
def run_queue_ops (ops : List QOp) : QRun :=
  ops.foldl QRun.step { queue := .new, popped := [] }

/-- The alerts pushed by an operation sequence, in push order. -/
def pushed_of (ops : List QOp) : List Alert :=
  ops.filterMap (fun op =>
    match op with
    | .push a => some a
    | .pop => none)

/-!
### Concrete instances used by witnesses and counterexamples
-/

/-- A pump alert as in the source's priority-queue test. -/
def qAlertPump : Alert where
  alert_type := .PumpDetected
  symbol := "BTCUSDT"
  price := 50000
  details := { price_change_pct := some 5, volume_ratio_val := none,
               cvd_change := none, timeframe := none }
  timestamp := 1000

/-- A long-setup alert as in the source's priority-queue test. -/
def qAlertLong : Alert where
  alert_type := .LongSetupConfirmed
  symbol := "ETHUSDT"
  price := 3000
  details := { price_change_pct := some 2, volume_ratio_val := none,
               cvd_change := none, timeframe := none }
  timestamp := 1001

/-- A baseline configuration: permissive hard filters, volatility-only
scoring weights, detection thresholds that keep pump/dump silent, and
roomy windows. -/
def cfgBase : Config where
  filters := { min_quote_volume := 1, min_price := 0, min_trades_24h := 0,
               stale_data_threshold_secs := 1000000 }
  scoring := { tier1_threshold := 1/2, tier2_threshold := 1/5,
               max_tier1_symbols := 5, rescore_interval_secs := 10,
               weights := { volume_weight := 0, volatility_weight := 1,
                            activity_weight := 0 } }
  detection := { pump_threshold_pct := 1000, dump_threshold_pct := -1000,
                 accumulation_range_pct := 1000, volume_spike_min := 1,
                 breakout_threshold_pct := 1, window_size_secs := 1000,
                 accumulation_window_secs := 1000,
                 distribution_window_secs := 1000 }
  performance := { price_window_size := 100, cvd_history_size := 100 }

/-- A freshly created Tier-1 snapshot. -/
def sC7 : SymbolData :=
  { SymbolData.new "AUSDT" 100 with tier := .Tier1 }

/-- Engine holding the single Tier-1 snapshot `sC7`. -/
def eC7 : SignalEngine where
  config := cfgBase
  symbols := [("AUSDT", sC7)]

/-- A buy trade (taker bought: `is_buyer_maker = false`) with parsed
price 2 and quantity 3. -/
def trC7 : TradeData where
  symbol := "AUSDT"
  price := some 2
  quantity := some 3
  is_buyer_maker := false
  trade_time := 0

/-- A ticker whose numeric fields all parse, with the given price,
quote volume, 24h percent change and trade count. -/
def mkTicker (symbol : String) (price qv pct : ℚ) (trades : Nat) :
    TickerData where
  symbol := symbol
  current_price := some price
  price_change := some 0
  price_change_percent := some pct
  volume := some 0
  quote_volume := some qv
  open_price := some 0
  high_price := some 0
  low_price := some 0
  number_of_trades := trades

/-- `cfgBase` with the Tier-1 cap lowered to one symbol. -/
def cfgCap1 : Config :=
  { cfgBase with scoring := { cfgBase.scoring with max_tier1_symbols := 1 } }

/-- Ticker for symbol `AUSDT` with 24h change 20% (volatility score 1,
hence total score 1 under `cfgBase`'s weights). -/
def tkA : TickerData := mkTicker "AUSDT" 10 100 20 50

/-- Ticker for symbol `BUSDT` with 24h change 9% (score 9/10). -/
def tkB : TickerData := mkTicker "BUSDT" 10 100 9 50

/-- Engine reached by processing the `tkA`/`tkB` batch (both symbols
score above the Tier-1 threshold; the cap is 1). -/
def eT1 : SignalEngine :=
  run_engine cfgCap1 [EngOp.tick [tkA, tkB] 100]

/-- The snapshot `process_ticker` builds from `tkA`. -/
def sA : SymbolData where
  symbol := "AUSDT"
  price := 10
  price_change_pct_24h := 20
  volume_24h := 0
  quote_volume_24h := 100
  trades_24h := 50
  high_24h := 0
  low_24h := 0
  open_24h := 0
  score := 0
  tier := .Ignored
  cvd := 0
  cvd_history := []
  price_window := [(100, 10)]
  volume_window := [(100, 100)]
  state := .Idle
  last_alert_time := none
  last_update_time := 100
  accumulation_start := none
  accumulation_high := none
  accumulation_low := none
  distribution_start := none
  distribution_high := none
  distribution_low := none

/-- The snapshot `process_ticker` builds from `tkB`. -/
def sB : SymbolData :=
  { sA with symbol := "BUSDT", price_change_pct_24h := 9 }

/-- The reachable state after also rescoring `eT1`. -/
def eT2 : SignalEngine :=
  run_engine cfgCap1
    [EngOp.tick [tkA, tkB] 100, EngOp.rescoreAt 100 (fun _ => 0)]

/-- One-symbol engine whose snapshot scores 0 (used as a rescore
witness). -/
def eW1 : SignalEngine where
  config := cfgBase
  symbols := [("AUSDT", SymbolData.new "AUSDT" 100)]

/-- Momentum alert types (pump/dump). -/
def is_momentum (a : Alert) : Bool :=
  a.alert_type == AlertType.PumpDetected
    || a.alert_type == AlertType.DumpDetected

/-- Range-machine alert types
(accumulation/distribution/breakout/breakdown). -/
def is_range_alert (a : Alert) : Bool :=
  a.alert_type == AlertType.AccumulationDetected
    || a.alert_type == AlertType.DistributionDetected
    || a.alert_type == AlertType.LongSetupConfirmed
    || a.alert_type == AlertType.ShortSetupConfirmed

/-- Detection config with a 1000-second configured window (so the
configured window and the fixed 300-second new-high window differ). -/
def dcfgC5 : DetectionConfig where
  pump_threshold_pct := 5
  dump_threshold_pct := -5
  accumulation_range_pct := 1
  volume_spike_min := 2
  breakout_threshold_pct := 1
  window_size_secs := 1000
  accumulation_window_secs := 120
  distribution_window_secs := 180

/-- Snapshot whose configured-window price history contains an old
spike to 200 (at `t = 600`, outside the 300-second new-high window at
`t = 1000`) while the recent prices sit at 150. -/
def sC5 : SymbolData :=
  { SymbolData.new "XUSDT" 100 with
    price := 150
    quote_volume_24h := 86400
    tier := .Tier1
    price_window := [(100, 100), (600, 200), (800, 150), (801, 150),
      (802, 150), (803, 150), (804, 150), (805, 150), (806, 150),
      (807, 150), (808, 150), (809, 150)]
    volume_window := [(800, 10)] }

/-- The pump alert `detect` emits for `sC5` at `t = 1000`. -/
def aC5 : Alert where
  alert_type := .PumpDetected
  symbol := "XUSDT"
  price := 150
  details := { price_change_pct := some 50, volume_ratio_val := some 10,
               cvd_change := none, timeframe := some "60s" }
  timestamp := 1000

/-- Detection config under which both a pump and an accumulation can
fire in one `detect` call. -/
def dcfgC4 : DetectionConfig where
  pump_threshold_pct := 1
  dump_threshold_pct := -1000
  accumulation_range_pct := 50
  volume_spike_min := 1
  breakout_threshold_pct := 1
  window_size_secs := 1000
  accumulation_window_secs := 1000
  distribution_window_secs := 1000

/-- Snapshot at a new high with 20 price samples, tight range, rising
CVD and elevated volume: pump and accumulation conditions hold
simultaneously at `t = 119`. -/
def sC4 : SymbolData :=
  { SymbolData.new "XUSDT" 100 with
    price := 102
    quote_volume_24h := 86400
    tier := .Tier1
    price_window := [(100, 100), (101, 100), (102, 100), (103, 100),
      (104, 100), (105, 100), (106, 100), (107, 100), (108, 100),
      (109, 100), (110, 100), (111, 100), (112, 100), (113, 100),
      (114, 100), (115, 100), (116, 100), (117, 100), (118, 100),
      (119, 102)]
    volume_window := [(119, 10)]
    cvd_history := [(100, 1), (119, 2)] }

/-- The aux-field/state relation of C3, in the direction the code
actually maintains: the accumulation auxiliary fields are populated
whenever the state is `Accumulation` or `BreakoutLong`, and the
distribution auxiliary fields whenever the state is `Distribution` or
`BreakdownShort`. -/
def aux_fields_inv (s : SymbolData) : Prop :=
  ((s.state = MarketState.Accumulation
      ∨ s.state = MarketState.BreakoutLong) →
    s.accumulation_start.isSome ∧ s.accumulation_high.isSome ∧
      s.accumulation_low.isSome) ∧
  ((s.state = MarketState.Distribution
      ∨ s.state = MarketState.BreakdownShort) →
    s.distribution_start.isSome ∧ s.distribution_high.isSome ∧
      s.distribution_low.isSome)

/-- The `log10` instantiation used in concrete rescore runs (its value
is irrelevant under volatility-only weights). -/
def log10zero : ℚ → ℚ := fun _ => 0

/-- Ticker batch: 19 flat samples at price 100 followed by one at 102,
all for `AUSDT` with 24h change 20%. -/
def batch1 : List TickerData :=
  List.replicate 19 (mkTicker "AUSDT" 100 86400 20 50)
    ++ [mkTicker "AUSDT" 102 86400 20 50]

/-- A unit buy trade (price 1, quantity 1, taker bought). -/
def trC3 : TradeData where
  symbol := "AUSDT"
  price := some 1
  quantity := some 1
  is_buyer_maker := false
  trade_time := 0

/-- Ticker dropping the 24h change to 1% (score 1/10, below the Tier-2
threshold 1/5 of `cfgBase`). -/
def tkC3b : TickerData := mkTicker "AUSDT" 102 86400 1 50

/-- Snapshot after the `batch1` tick at `t = 100`. -/
def s1lit : SymbolData where
  symbol := "AUSDT"
  price := 102
  price_change_pct_24h := 20
  volume_24h := 0
  quote_volume_24h := 86400
  trades_24h := 50
  high_24h := 0
  low_24h := 0
  open_24h := 0
  score := 0
  tier := .Ignored
  cvd := 0
  cvd_history := []
  price_window := List.replicate 19 ((100 : Nat), (100 : ℚ)) ++ [(100, 102)]
  volume_window := List.replicate 20 ((100 : Nat), (86400 : ℚ))
  state := .Idle
  last_alert_time := none
  last_update_time := 100
  accumulation_start := none
  accumulation_high := none
  accumulation_low := none
  distribution_start := none
  distribution_high := none
  distribution_low := none

/-- After the first rescore: promoted to Tier1, score 1. -/
def s2lit : SymbolData := { s1lit with score := 1, tier := .Tier1 }

/-- After the first unit trade at `t = 101`. -/
def s3lit : SymbolData :=
  { s2lit with cvd := 1, cvd_history := [(101, 1)] }

/-- After the second unit trade at `t = 102`: accumulation detected. -/
def s4lit : SymbolData :=
  { s3lit with
    cvd := 2
    cvd_history := [(101, 1), (102, 2)]
    state := .Accumulation
    accumulation_start := some 102
    accumulation_high := some 102
    accumulation_low := some 102 }

/-- The accumulation alert emitted on the second trade. -/
def accAlertC3 : Alert where
  alert_type := .AccumulationDetected
  symbol := "AUSDT"
  price := 102
  details := { price_change_pct := some (100/51),
               volume_ratio_val := some 86400, cvd_change := some 1,
               timeframe := some "2m" }
  timestamp := 102

/-- After the low-volatility ticker `tkC3b` at `t = 103`. -/
def s5lit : SymbolData :=
  { s4lit with
    price_change_pct_24h := 1
    price_window := (List.replicate 19 ((100 : Nat), (100 : ℚ))
      ++ [(100, 102)]) ++ [(103, 102)]
    volume_window := List.replicate 20 ((100 : Nat), (86400 : ℚ))
      ++ [(103, 86400)]
    last_update_time := 103 }

/-- After the second rescore at `t = 103`: demoted to Ignored, CVD
cleared, state reset to Idle — the accumulation fields survive. -/
def s6lit : SymbolData :=
  { s5lit with score := 1/10, tier := .Ignored, cvd := 0,
               cvd_history := [], state := .Idle }

/-- The reachable engine state of the C3 counterexample trace. -/
def eC3 : SignalEngine :=
  run_engine cfgBase
    [EngOp.tick batch1 100,
     EngOp.rescoreAt 100 log10zero,
     EngOp.trade trC3 101,
     EngOp.trade trC3 102,
     EngOp.tick [tkC3b] 103,
     EngOp.rescoreAt 103 log10zero]

/-- A ticker that passes every hard filter but whose
`price_change_percent` field does not parse. -/
def tC6 : TickerData where
  symbol := "AUSDT"
  current_price := some 10
  price_change := some 0
  price_change_percent := none
  volume := some 0
  quote_volume := some 100
  open_price := some 0
  high_price := some 0
  low_price := some 0
  number_of_trades := 50

/-- A ticker whose `quote_volume` field does not parse. -/
def tC6qv : TickerData where
  symbol := "AUSDT"
  current_price := some 10
  price_change := some 0
  price_change_percent := some 9
  volume := some 0
  quote_volume := none
  open_price := some 0
  high_price := some 0
  low_price := some 0
  number_of_trades := 50

/-- A trade whose `price` field does not parse. -/
def trC6n : TradeData where
  symbol := "AUSDT"
  price := none
  quantity := some 3
  is_buyer_maker := false
  trade_time := 0

/-- Dispatcher state with one stale (`10`) and one fresh (`950`)
rate-window entry, capacity 1 alert per minute. -/
def dC9 : TelegramDispatcher where
  config := { alert_cooldown_secs := 300, max_alerts_per_minute := 1 }
  last_alert_times := []
  alerts_this_minute := [10, 950]

/-- The alert offered to `dC9` at `t = 1000`. -/
def aC9 : Alert where
  alert_type := .PumpDetected
  symbol := "BTCUSDT"
  price := 50000
  details := { price_change_pct := none, volume_ratio_val := none,
               cvd_change := none, timeframe := none }
  timestamp := 1000

/-- Dispatcher state whose cooldown map blocks `aC9`-style alerts at
`t = 1000` (last alert for the pair at `t = 900`, cooldown 300 s). -/
def dC9cool : TelegramDispatcher where
  config := { alert_cooldown_secs := 300, max_alerts_per_minute := 10 }
  last_alert_times := [(("BTCUSDT", .PumpDetected), 900)]
  alerts_this_minute := []

end Krypt

namespace Krypt

/-!
### Theorems
-/

theorem le_clampQ (x lo hi : ℚ) (h : lo ≤ hi) : lo ≤ clampQ x lo hi := by
  unfold clampQ
  split_ifs <;> linarith

theorem clampQ_le (x lo hi : ℚ) (h : lo ≤ hi) : clampQ x lo hi ≤ hi := by
  unfold clampQ
  split_ifs <;> linarith

theorem calculate_volume_score_mem (log10 : ℚ → ℚ) (qv : ℚ) :
    0 ≤ calculate_volume_score log10 qv ∧
      calculate_volume_score log10 qv ≤ 1 := by
  unfold calculate_volume_score
  split_ifs with h
  · exact ⟨le_refl 0, by norm_num⟩
  · exact ⟨le_clampQ _ 0 1 (by norm_num), clampQ_le _ 0 1 (by norm_num)⟩

theorem calculate_volatility_score_mem (pct : ℚ) :
    0 ≤ calculate_volatility_score pct ∧
      calculate_volatility_score pct ≤ 1 :=
  ⟨le_clampQ _ 0 1 (by norm_num), clampQ_le _ 0 1 (by norm_num)⟩

theorem calculate_activity_score_mem (trades : Nat) :
    0 ≤ calculate_activity_score trades ∧
      calculate_activity_score trades ≤ 1 :=
  ⟨le_clampQ _ 0 1 (by norm_num), clampQ_le _ 0 1 (by norm_num)⟩

/-- C8: for every snapshot — whatever the magnitudes or signs of its
quote volume, 24h percent change and trade count — and for any
configured weights and any value of `log10`, the Scorer's total score
lies in `[0, 1]`, each of the three sub-scores lies in `[0, 1]`, and a
non-positive quote volume yields volume score `0`. -/
theorem scorer_scores_clamped (cfg : ScoringConfig) (log10 : ℚ → ℚ)
    (s : SymbolData) :
    (0 ≤ calculate_score cfg log10 s ∧ calculate_score cfg log10 s ≤ 1) ∧
    (0 ≤ calculate_volume_score log10 s.quote_volume_24h ∧
      calculate_volume_score log10 s.quote_volume_24h ≤ 1) ∧
    (0 ≤ calculate_volatility_score s.price_change_pct_24h ∧
      calculate_volatility_score s.price_change_pct_24h ≤ 1) ∧
    (0 ≤ calculate_activity_score s.trades_24h ∧
      calculate_activity_score s.trades_24h ≤ 1) ∧
    (s.quote_volume_24h ≤ 0 →
      calculate_volume_score log10 s.quote_volume_24h = 0) := by
  refine ⟨?_, calculate_volume_score_mem log10 _,
    calculate_volatility_score_mem _, calculate_activity_score_mem _, ?_⟩
  · unfold calculate_score
    exact ⟨le_clampQ _ 0 1 (by norm_num), clampQ_le _ 0 1 (by norm_num)⟩
  · intro h
    unfold calculate_volume_score
    simp [h]

/-- Witness for C8 at a concrete snapshot with negative quote volume,
zero weights aside and `log10 := id`. -/
theorem scorer_scores_clamped_witness :
    ((-5 : ℚ) ≤ 0) ∧
      calculate_volume_score (fun x => x)
        (SymbolData.new "AUSDT" 0).quote_volume_24h = 0 := by
  refine ⟨by norm_num, ?_⟩
  have h := (scorer_scores_clamped
    { tier1_threshold := 7/10, tier2_threshold := 2/5,
      max_tier1_symbols := 20, rescore_interval_secs := 10,
      weights := { volume_weight := 2/5, volatility_weight := 2/5,
                   activity_weight := 1/5 } }
    (fun x => x) (SymbolData.new "AUSDT" 0)).2.2.2.2
  exact h (by norm_num [SymbolData.new])

theorem queue_le_trans : ∀ a b c : Alert, queue_le a b = true →
    queue_le b c = true → queue_le a c = true := by
  intro a b c hab hbc
  simp only [queue_le, decide_eq_true_eq] at *
  omega

theorem queue_le_total : ∀ a b : Alert,
    (queue_le a b || queue_le b a) = true := by
  intro a b
  simp only [queue_le, Bool.or_eq_true, decide_eq_true_eq]
  omega

/-- The class of alerts of one given priority value. -/
def same_priority (p : Nat) (a : Alert) : Bool :=
  get_priority a.alert_type == p

/-- Stability of the queue's sort, phrased per priority class: sorting
commutes with restricting to the alerts of any one priority. -/
theorem filter_class_mergeSort (p : Nat) :
    ∀ l : List Alert,
      (l.mergeSort queue_le).filter (same_priority p)
        = l.filter (same_priority p)
  | [] => by simp
  | a :: l => by
    obtain ⟨l₁, l₂, h1, h2, h3⟩ :=
      List.mergeSort_cons queue_le_trans queue_le_total a l
    have ihl := filter_class_mergeSort p l
    rw [h2, List.filter_append] at ihl
    rw [h1, List.filter_append]
    by_cases hp : same_priority p a = true
    · have hl₁ : l₁.filter (same_priority p) = [] := by
        rw [List.filter_eq_nil_iff]
        intro b hb
        have hb' := h3 b hb
        simp only [queue_le, Bool.not_eq_eq_eq_not, Bool.not_true,
          decide_eq_false_iff_not] at hb'
        simp only [same_priority, beq_iff_eq] at hp ⊢
        omega
      rw [hl₁] at ihl ⊢
      simp only [List.nil_append] at ihl
      simp [List.filter_cons, hp, ihl]
    · have hp' : same_priority p a = false := by
        simpa using hp
      simp [List.filter_cons, hp', ihl]

/-- The queue invariant maintained by every `push`/`pop`:
the buffered list is sorted by non-increasing priority, and for every
priority class, the pushed alerts of that class are exactly the popped
ones followed by the buffered ones (FIFO within each class). -/
def queue_inv (pushed : List Alert) (st : QRun) : Prop :=
  st.queue.queue.Pairwise (fun a b => queue_le a b = true) ∧
  ∀ p : Nat, pushed.filter (same_priority p)
    = st.popped.filter (same_priority p)
      ++ st.queue.queue.filter (same_priority p)

theorem queue_inv_push (pushed : List Alert) (st : QRun) (a : Alert)
    (h : queue_inv pushed st) :
    queue_inv (pushed ++ [a]) (st.step (.push a)) := by
  obtain ⟨hs, hf⟩ := h
  constructor
  · exact List.sorted_mergeSort queue_le_trans queue_le_total _
  · intro p
    simp only [QRun.step, AlertPriorityQueue.push]
    rw [filter_class_mergeSort, List.filter_append, List.filter_append,
      hf p, List.append_assoc]

theorem queue_inv_pop (pushed : List Alert) (st : QRun)
    (h : queue_inv pushed st) : queue_inv pushed (st.step .pop) := by
  obtain ⟨hs, hf⟩ := h
  cases hq : st.queue.queue with
  | nil =>
    constructor
    · simp [QRun.step, AlertPriorityQueue.pop, hq, hs]
    · intro p
      simpa [QRun.step, AlertPriorityQueue.pop, hq] using hf p
  | cons x t =>
    rw [hq] at hs hf
    constructor
    · simp only [QRun.step, AlertPriorityQueue.pop, hq]
      exact (List.pairwise_cons.mp hs).2
    · intro p
      simp only [QRun.step, AlertPriorityQueue.pop, hq, List.filter_append]
      rw [hf p, List.filter_cons, List.append_assoc]
      cases hpa : same_priority p x <;> simp [hpa]

theorem queue_inv_run (ops : List QOp) :
    queue_inv (pushed_of ops) (run_queue_ops ops) := by
  induction ops using List.reverseRecOn with
  | nil =>
    constructor
    · simp [run_queue_ops, AlertPriorityQueue.new]
    · intro p
      simp [run_queue_ops, pushed_of, AlertPriorityQueue.new]
  | append_singleton ops op ih =>
    have hrun : run_queue_ops (ops ++ [op])
        = (run_queue_ops ops).step op := by
      simp [run_queue_ops]
    cases op with
    | push a =>
      have hp : pushed_of (ops ++ [QOp.push a]) = pushed_of ops ++ [a] := by
        simp [pushed_of]
      rw [hrun, hp]
      exact queue_inv_push _ _ a ih
    | pop =>
      have hp : pushed_of (ops ++ [QOp.pop]) = pushed_of ops := by
        simp [pushed_of]
      rw [hrun, hp]
      exact queue_inv_pop _ _ ih

/-- C10: for every sequence of push and pop operations, the
AlertPriorityQueue dequeues alerts in non-increasing priority — the
buffered queue is always sorted with
LongSetupConfirmed/ShortSetupConfirmed (10) above
AccumulationDetected/DistributionDetected (7) above
PumpDetected/DumpDetected (5), and a `pop` returns an alert of maximal
priority among those buffered — and, within each priority class, alerts
leave in exactly the order they were pushed (the pushed alerts of a
class are the popped ones followed by the buffered ones). -/
theorem alert_queue_priority_fifo (ops : List QOp) :
    (run_queue_ops ops).queue.queue.Pairwise
      (fun a b => get_priority b.alert_type ≤ get_priority a.alert_type) ∧
    (∀ a rest, (run_queue_ops ops).queue.pop = (some a, rest) →
      ∀ b ∈ rest.queue,
        get_priority b.alert_type ≤ get_priority a.alert_type) ∧
    (∀ p : Nat, (pushed_of ops).filter (same_priority p)
      = (run_queue_ops ops).popped.filter (same_priority p)
        ++ (run_queue_ops ops).queue.queue.filter (same_priority p)) ∧
    get_priority AlertType.PumpDetected
      < get_priority AlertType.AccumulationDetected ∧
    get_priority AlertType.DumpDetected
      < get_priority AlertType.DistributionDetected ∧
    get_priority AlertType.AccumulationDetected
      < get_priority AlertType.LongSetupConfirmed ∧
    get_priority AlertType.DistributionDetected
      < get_priority AlertType.ShortSetupConfirmed := by
  obtain ⟨hs, hf⟩ := queue_inv_run ops
  refine ⟨?_, ?_, hf, by decide, by decide, by decide, by decide⟩
  · exact hs.imp (fun h => by simpa [queue_le] using h)
  · intro a rest h b hb
    cases hq : (run_queue_ops ops).queue.queue with
    | nil => simp [AlertPriorityQueue.pop, hq] at h
    | cons x t =>
      rw [hq] at hs
      simp only [AlertPriorityQueue.pop, hq, Prod.mk.injEq] at h
      obtain ⟨hax, hrest⟩ := h
      have hax' : x = a := Option.some.inj hax
      have hx := (List.pairwise_cons.mp hs).1
      rw [← hrest] at hb
      have := hx b hb
      rw [hax'] at this
      simpa [queue_le] using this

/-- Witness for C10: pushing a pump alert then a long-setup alert and
popping yields the long-setup alert first, ahead of the pump alert. -/
theorem alert_queue_priority_fifo_witness :
    get_priority qAlertPump.alert_type
      ≤ get_priority qAlertLong.alert_type :=
  (alert_queue_priority_fifo
      [QOp.push qAlertPump, QOp.push qAlertLong]).2.1
    qAlertLong { queue := [qAlertPump] }
    (by simp [run_queue_ops, QRun.step, AlertPriorityQueue.push,
      AlertPriorityQueue.pop, AlertPriorityQueue.new, List.mergeSort,
      qAlertPump, qAlertLong, queue_le, get_priority])
    qAlertPump (by simp)

/-- C9 counterexample: at `t = 1000`, dispatcher `dC9` (stale entry
`10`, fresh entry `950`, limit 1/min) suppresses alert `aC9` by the
rate limit, yet its rate-limit window changes from `[10, 950]` to
`[950]` — `check_rate_limit` prunes stale entries as a side effect, so
a suppressed alert does not leave both trackers unchanged. -/
theorem dispatcher_suppressed_mutates_window :
    check_cooldown dC9 aC9 = true ∧
    (check_rate_limit dC9 1000).2 = false ∧
    dC9.alerts_this_minute = [10, 950] ∧
    (send_alert dC9 aC9 1000 true).1.alerts_this_minute = [950] := by
  refine ⟨by decide, by decide, by decide, ?_⟩
  decide

/-- C9 (amended): the cooldown tracker gains an entry, and the
rate-limit window gains a timestamp, only on successful delivery.  An
alert suppressed by cooldown leaves the dispatcher entirely unchanged.
An alert suppressed by the rate limit, or whose delivery fails, leaves
the cooldown tracker unchanged and adds nothing to the rate-limit
window, but the window is pruned of entries older than 60 seconds as a
side effect of the rate-limit check. -/
theorem dispatcher_tracker_updates (d : TelegramDispatcher)
    (alert : Alert) (now : Timestamp) (delivery_ok : Bool) :
    (check_cooldown d alert = false →
      send_alert d alert now delivery_ok = (d, true)) ∧
    (check_cooldown d alert = true → (check_rate_limit d now).2 = false →
      (send_alert d alert now delivery_ok).1.last_alert_times
          = d.last_alert_times ∧
        (send_alert d alert now delivery_ok).1.alerts_this_minute
          = d.alerts_this_minute.filter (fun ts => ts ≥ now - 60) ∧
        (send_alert d alert now delivery_ok).2 = true) ∧
    (check_cooldown d alert = true → (check_rate_limit d now).2 = true →
      delivery_ok = false →
      (send_alert d alert now delivery_ok).1.last_alert_times
          = d.last_alert_times ∧
        (send_alert d alert now delivery_ok).1.alerts_this_minute
          = d.alerts_this_minute.filter (fun ts => ts ≥ now - 60) ∧
        (send_alert d alert now delivery_ok).2 = false) ∧
    (check_cooldown d alert = true → (check_rate_limit d now).2 = true →
      delivery_ok = true →
      (send_alert d alert now delivery_ok).1.last_alert_times
          = (insert_cooldown d.last_alert_times
              (alert.symbol, alert.alert_type) alert.timestamp) ∧
        (send_alert d alert now delivery_ok).1.alerts_this_minute
          = d.alerts_this_minute.filter (fun ts => ts ≥ now - 60)
            ++ [alert.timestamp] ∧
        (send_alert d alert now delivery_ok).2 = true) := by
  refine ⟨?_, ?_, ?_, ?_⟩
  · intro hc
    simp [send_alert, hc]
  · intro hc hr
    simp only [send_alert, hc, hr]
    simp [check_rate_limit]
  · intro hc hr hd
    subst hd
    simp only [send_alert, hc, hr]
    simp [check_rate_limit]
  · intro hc hr hd
    subst hd
    simp only [send_alert, hc, hr]
    simp [check_rate_limit]

/-- Witness for C9 (amended), cooldown branch: at `t = 1000`, alert
`aC9` against dispatcher `dC9cool` (same key sent at `t = 900`,
cooldown 300 s) is suppressed and the dispatcher is returned
unchanged. -/
theorem dispatcher_tracker_updates_witness :
    check_cooldown dC9cool aC9 = false ∧
    send_alert dC9cool aC9 1000 true = (dC9cool, true) :=
  ⟨by decide, (dispatcher_tracker_updates dC9cool aC9 1000 true).1
    (by decide)⟩

/-- `Detector::detect` never touches the CVD accumulator or the CVD
history: it only reads them. -/
theorem detect_cvd_eq (cfg : DetectionConfig) (now : Timestamp)
    (s : SymbolData) :
    (detect cfg now s).1.cvd = s.cvd ∧
      (detect cfg now s).1.cvd_history = s.cvd_history := by
  refine ⟨?_, ?_⟩ <;> (unfold detect; dsimp only; repeat' split) <;>
    simp_all

theorem find?_set_symbol :
    ∀ (l : List (String × SymbolData)) (k : String) (s' : SymbolData),
      ((l.find? (fun p => p.1 == k)).isSome) →
      ((set_symbol l k s').find? (fun p => p.1 == k)).map (·.2) = some s'
  | [], _, _, h => by simp [List.find?] at h
  | (k₀, s₀) :: rest, k, s', h => by
    simp only [set_symbol, List.map_cons]
    by_cases hk : (k₀ == k) = true
    · rw [if_pos hk, List.find?_cons_of_pos _ (by simpa using hk)]
      simp
    · rw [if_neg hk, List.find?_cons_of_neg _ (by simpa using hk)]
      have hrest : (rest.find? (fun p => p.1 == k)).isSome := by
        rw [List.find?_cons_of_neg _ (by simpa using hk)] at h
        exact h
      have ih := find?_set_symbol rest k s' hrest
      simpa [set_symbol] using ih

theorem push_trim_getLast (cap : Nat) (l : List (Timestamp × ℚ))
    (x : Timestamp × ℚ) (h : 0 < cap) :
    (push_trim cap l x).getLast? = some x := by
  unfold push_trim
  rw [List.drop_append_of_le_length (by simp; omega)]
  simp

/-- C7: a trade for a Tier-1 symbol with positive parsed price and
quantity moves the symbol's CVD by exactly `price * quantity` — added
when `is_buyer_maker` is false (taker bought), subtracted when true —
and the new running CVD value is appended as the last entry of the CVD
history. -/
theorem process_trade_cvd (e : SignalEngine) (trade : TradeData)
    (now : Timestamp) (s : SymbolData) (p q : ℚ)
    (hs : lookup_symbol e trade.symbol = some s)
    (ht : s.tier = Tier.Tier1)
    (hp : trade.price = some p) (hq : trade.quantity = some q)
    (hp0 : 0 < p) (hq0 : 0 < q)
    (hcap : 0 < e.config.performance.cvd_history_size) :
    ((lookup_symbol (process_trade e trade now).1 trade.symbol).map
        (fun s' => (s'.cvd, s'.cvd_history.getLast?)))
      = some (s.cvd + (if trade.is_buyer_maker then -(p * q) else p * q),
          some (now, s.cvd
            + (if trade.is_buyer_maker then -(p * q) else p * q))) := by
  have hguard : ¬ ((trade.price.getD 0 = 0) ∨ (trade.quantity.getD 0 = 0)) := by
    rw [hp, hq]
    push_neg
    constructor
    · simpa using ne_of_gt hp0
    · simpa using ne_of_gt hq0
  have hcvd : update_cvd e.config now s trade
      = { s with
          cvd := s.cvd + (if trade.is_buyer_maker then -(p * q) else p * q),
          cvd_history := (push_trim e.config.performance.cvd_history_size
            s.cvd_history (now, s.cvd
              + (if trade.is_buyer_maker then -(p * q) else p * q))) } := by
    unfold update_cvd
    rw [if_neg hguard]
    rw [hp, hq]
    simp
  unfold process_trade
  rw [hs]
  simp only [ht, ne_eq, not_true_eq_false, if_false, ite_false]
  have hfind : ((e.symbols.find? (fun x => x.1 == trade.symbol)).isSome) := by
    unfold lookup_symbol at hs
    cases hfe : e.symbols.find? (fun x => x.1 == trade.symbol) with
    | none => rw [hfe] at hs; simp at hs
    | some v => simp
  have hlook := find?_set_symbol e.symbols trade.symbol
    (detect e.config.detection now (update_cvd e.config now s trade)).1 hfind
  simp only [lookup_symbol]
  rw [hlook]
  have hdet := detect_cvd_eq e.config.detection now
    (update_cvd e.config now s trade)
  simp only [Option.map_some']
  rw [hdet.1, hdet.2, hcvd]
  simp [push_trim_getLast _ _ _ hcap]

/-- Witness for C7: the buy trade `trC7` (price 2, quantity 3) against
the Tier-1 snapshot `sC7` adds `6` to the CVD and appends `(100, 6)` to
the history. -/
theorem process_trade_cvd_witness :
    lookup_symbol eC7 trC7.symbol = some sC7 ∧
    ((lookup_symbol (process_trade eC7 trC7 100).1 trC7.symbol).map
        (fun s' => (s'.cvd, s'.cvd_history.getLast?)))
      = some (sC7.cvd + (if trC7.is_buyer_maker then -(2 * 3) else 2 * 3),
          some (100, sC7.cvd
            + (if trC7.is_buyer_maker then -(2 * 3) else 2 * 3))) :=
  ⟨by decide, process_trade_cvd eC7 trC7 100 sC7 2 3 (by decide)
    (by decide) (by decide) (by decide) (by decide) (by decide) (by decide)⟩

/-- C6 counterexample: ticker `tC6` passes the hard filters (which
parse only `quote_volume` and `current_price`) even though its
`price_change_percent` field is unparseable, so `process_ticker` does
NOT leave the symbol table unchanged: it creates a snapshot, with the
bad field defaulted to `0`. -/
theorem ticker_unparseable_field_still_updates :
    tC6.price_change_percent = none ∧
    (SignalEngine.new cfgBase).symbols = [] ∧
    ((lookup_symbol (process_ticker (SignalEngine.new cfgBase) [tC6] 100)
        "AUSDT").map (·.price_change_pct_24h)) = some 0 := by
  refine ⟨rfl, rfl, by decide⟩

/-- C6 (amended): a ticker whose `quote_volume` or `current_price`
fails to parse is a hard-filter failure and leaves the symbol table
unchanged (failures of the other numeric fields default to `0` and the
update proceeds, as `tC6` shows); a trade for a Tier-1 symbol whose
`price` or `quantity` fails to parse performs no CVD update — CVD and
CVD history are unchanged — though detection still runs on the
unchanged CVD state. -/
theorem parse_failure_handling (e : SignalEngine) (t : TickerData)
    (tr : TradeData) (now : Timestamp) (s : SymbolData) :
    ((t.quote_volume = none ∨ t.current_price = none) →
      process_ticker e [t] now = e) ∧
    (lookup_symbol e tr.symbol = some s → s.tier = Tier.Tier1 →
      (tr.price = none ∨ tr.quantity = none) →
      ((lookup_symbol (process_trade e tr now).1 tr.symbol).map
          (fun s' => (s'.cvd, s'.cvd_history)))
        = some (s.cvd, s.cvd_history)) := by
  constructor
  · intro hcase
    have hf : passes_hard_filters e.config.filters t = false := by
      unfold passes_hard_filters
      rcases hcase with h | h
      · rw [h]
        cases "USDT".data.isSuffixOf t.symbol.data <;> simp
      · rw [h]
        cases "USDT".data.isSuffixOf t.symbol.data <;>
          cases t.quote_volume <;> simp
    simp [process_ticker, hf]
  · intro hs ht hcase
    have hcvd : update_cvd e.config now s tr = s := by
      unfold update_cvd
      rcases hcase with h | h <;> simp [h]
    unfold process_trade
    rw [hs]
    simp only [ht, ne_eq, not_true_eq_false, if_false, ite_false]
    have hfind : ((e.symbols.find? (fun x => x.1 == tr.symbol)).isSome) := by
      unfold lookup_symbol at hs
      cases hfe : e.symbols.find? (fun x => x.1 == tr.symbol) with
      | none => rw [hfe] at hs; simp at hs
      | some v => simp
    have hlook := find?_set_symbol e.symbols tr.symbol
      (detect e.config.detection now (update_cvd e.config now s tr)).1 hfind
    simp only [lookup_symbol]
    rw [hlook]
    have hdet := detect_cvd_eq e.config.detection now
      (update_cvd e.config now s tr)
    simp only [Option.map_some']
    rw [hdet.1, hdet.2, hcvd]

/-- Witness for C6 (amended): the unparseable-volume ticker `tC6qv`
leaves the engine unchanged, and the unparseable-price trade `trC6n`
leaves the Tier-1 snapshot's CVD and history unchanged. -/
theorem parse_failure_handling_witness :
    process_ticker eC7 [tC6qv] 100 = eC7 ∧
    ((lookup_symbol (process_trade eC7 trC6n 100).1 trC6n.symbol).map
        (fun s' => (s'.cvd, s'.cvd_history)))
      = some (sC7.cvd, sC7.cvd_history) :=
  ⟨(parse_failure_handling eC7 tC6qv trC6n 100 sC7).1 (Or.inl rfl),
   (parse_failure_handling eC7 tC6qv trC6n 100 sC7).2 (by decide)
     (by decide) (Or.inl rfl)⟩

/-- C2 counterexample: in the reachable state `eT2` (two snapshots with
scores 1 and 9/10, both above the Tier-1 threshold 1/2, cap
`max_tier1_symbols = 1`, one rescore performed) the number of snapshots
with tier Tier1 is 2, exceeding the configured maximum of 1: the
`assign_tier` fallback in `rescore_symbols` re-grants Tier1 to
qualifying snapshots excluded from the capped selection. -/
theorem eT1_eval :
    eT1 = { config := cfgCap1, symbols := [("AUSDT", sA), ("BUSDT", sB)] } :=
  rfl

/-- Evaluating the rescore of `eT1`: `AUSDT` (score 1) fills the
selection; `BUSDT` (score 9/10 ≥ threshold 1/2) is re-assigned Tier1 by
`assign_tier` although it is outside the selection. -/
theorem rescore_eT1_eval :
    rescore_symbols eT1 100 (fun _ => 0)
      = ({ config := cfgCap1,
           symbols := [("AUSDT", { sA with score := 1, tier := .Tier1 }),
                       ("BUSDT", { sB with score := 9/10, tier := .Tier1 })] },
         ["AUSDT"]) := by
  rw [eT1_eval]
  have h1 : (("BUSDT" : String) == "AUSDT") = false := by decide
  have h2 : (("AUSDT" : String) == "AUSDT") = true := by decide
  norm_num [rescore_symbols, calculate_score, calculate_volume_score,
    calculate_volatility_score, calculate_activity_score, clampQ,
    assign_tier, select_tier1_symbols, List.mergeSort, cfgCap1, cfgBase,
    sA, sB, h1, h2, List.contains, Function.comp]

theorem tier1_cap_exceeded :
    cfgCap1.scoring.max_tier1_symbols = 1 ∧
    eT2.symbols.countP (fun p => p.2.tier == Tier.Tier1) = 2 := by
  have he : eT2 = (rescore_symbols eT1 100 (fun _ => 0)).1 := rfl
  refine ⟨rfl, ?_⟩
  rw [he, rescore_eT1_eval]
  decide

/-- C2 (amended): the Tier-1 selection returned by `rescore_symbols`
never exceeds `max_tier1_symbols`; the number of snapshots whose
tier field equals Tier1, however, equals the number of snapshots
scoring at least the Tier-1 threshold and can exceed the cap. -/
theorem rescore_selection_le_max (e : SignalEngine) (now : Timestamp)
    (log10 : ℚ → ℚ) :
    (rescore_symbols e now log10).2.length
      ≤ e.config.scoring.max_tier1_symbols := by
  unfold rescore_symbols select_tier1_symbols
  simp only [List.length_map]
  exact List.length_take_le _ _

/-- C1 counterexample: rescoring `eT1` returns the selection
`["AUSDT"]`; snapshot `BUSDT` is outside the returned selection, yet
its tier is set to Tier1 — not Tier2 or Ignored — because its score
9/10 still meets the Tier-1 threshold. -/
theorem rescore_unselected_gets_tier1 :
    (rescore_symbols eT1 100 (fun _ => 0)).2 = ["AUSDT"] ∧
    ((lookup_symbol (rescore_symbols eT1 100 (fun _ => 0)).1
        "BUSDT").map SymbolData.tier) = some Tier.Tier1 := by
  rw [rescore_eT1_eval]
  refine ⟨rfl, by decide⟩

/-- C1 (amended): after `rescore_symbols`, every snapshot not in the
returned Tier-1 selection has its tier reassigned by the Scorer's
threshold rule (`assign_tier` on its fresh score); whenever that rule
yields Tier2 or Ignored — in particular for every previously-Tier1
snapshot that no longer meets the Tier-1 threshold — the snapshot's CVD
is reset to 0, its CVD history is emptied and its state is reset to
Idle.  A non-selected snapshot whose score still meets the Tier-1
threshold keeps tier Tier1 and retains its CVD data. -/
theorem rescore_unselected (e : SignalEngine) (now : Timestamp)
    (log10 : ℚ → ℚ) (k : String) (s : SymbolData)
    (hmem : (k, s) ∈ (rescore_symbols e now log10).1.symbols)
    (hsel : s.symbol ∉ (rescore_symbols e now log10).2) :
    s.tier = assign_tier e.config.scoring s.score ∧
    (assign_tier e.config.scoring s.score ≠ Tier.Tier1 →
      s.cvd = 0 ∧ s.cvd_history = [] ∧ s.state = MarketState.Idle) := by
  simp only [rescore_symbols] at hmem hsel
  obtain ⟨p, hp, heq⟩ := List.mem_map.mp hmem
  have hs := congrArg Prod.snd heq
  dsimp only at hs
  split at hs
  · exfalso
    rename_i hcont
    apply hsel
    have hsym : s.symbol = p.2.symbol := by rw [← hs]
    rw [hsym]
    simpa using hcont
  · split at hs
    · refine ⟨by rw [← hs], fun _ => ?_⟩
      rw [← hs]
      exact ⟨rfl, rfl, rfl⟩
    · rename_i hti
      have hti' := not_not.mp (by simpa using hti)
      have hscore : s.score = p.2.score := by rw [← hs]
      refine ⟨by rw [← hs], fun hne => ?_⟩
      rw [hscore] at hne
      exact absurd hti' hne

theorem detect_pump_type (cfg : DetectionConfig) (now : Timestamp)
    (s : SymbolData) (a : Alert) (h : detect_pump cfg now s = some a) :
    a.alert_type = AlertType.PumpDetected := by
  unfold detect_pump at h
  dsimp only at h
  iterate 6 (all_goals try split at h)
  all_goals
    first
      | exact Option.noConfusion h
      | (injection h with h2; subst h2; rfl)

theorem detect_dump_type (cfg : DetectionConfig) (now : Timestamp)
    (s : SymbolData) (a : Alert) (h : detect_dump cfg now s = some a) :
    a.alert_type = AlertType.DumpDetected := by
  unfold detect_dump at h
  dsimp only at h
  iterate 6 (all_goals try split at h)
  all_goals
    first
      | exact Option.noConfusion h
      | (injection h with h2; subst h2; rfl)

theorem detect_accumulation_type (cfg : DetectionConfig)
    (now : Timestamp) (s : SymbolData) (a : Alert)
    (h : detect_accumulation cfg now s = some a) :
    a.alert_type = AlertType.AccumulationDetected := by
  unfold detect_accumulation at h
  dsimp only at h
  iterate 6 (all_goals try split at h)
  all_goals
    first
      | exact Option.noConfusion h
      | (injection h with h2; subst h2; rfl)

theorem detect_distribution_type (cfg : DetectionConfig)
    (now : Timestamp) (s : SymbolData) (a : Alert)
    (h : detect_distribution cfg now s = some a) :
    a.alert_type = AlertType.DistributionDetected := by
  unfold detect_distribution at h
  dsimp only at h
  iterate 6 (all_goals try split at h)
  all_goals
    first
      | exact Option.noConfusion h
      | (injection h with h2; subst h2; rfl)

theorem detect_breakout_long_type (cfg : DetectionConfig)
    (now : Timestamp) (s : SymbolData) (a : Alert)
    (h : detect_breakout_long cfg now s = some a) :
    a.alert_type = AlertType.LongSetupConfirmed := by
  unfold detect_breakout_long at h
  dsimp only at h
  iterate 6 (all_goals try split at h)
  all_goals
    first
      | exact Option.noConfusion h
      | (injection h with h2; subst h2; rfl)

theorem detect_breakdown_short_type (cfg : DetectionConfig)
    (now : Timestamp) (s : SymbolData) (a : Alert)
    (h : detect_breakdown_short cfg now s = some a) :
    a.alert_type = AlertType.ShortSetupConfirmed := by
  unfold detect_breakdown_short at h
  dsimp only at h
  iterate 6 (all_goals try split at h)
  all_goals
    first
      | exact Option.noConfusion h
      | (injection h with h2; subst h2; rfl)

/-- Inverting the guards of `detect_pump`: an emitted pump alert means
at least 10 samples in the configured window, price change from the
window's first price at or above the pump threshold, volume ratio at or
above the spike threshold, and a new high over the fixed 300-second
window. -/
theorem detect_pump_conditions (cfg : DetectionConfig)
    (now : Timestamp) (s : SymbolData) (a : Alert)
    (h : detect_pump cfg now s = some a) :
    10 ≤ (samples_from s.price_window (now - cfg.window_size_secs)).length ∧
    cfg.pump_threshold_pct
      ≤ ((s.price - (samples_from s.price_window
          (now - cfg.window_size_secs)).headD 0)
        / (samples_from s.price_window (now - cfg.window_size_secs)).headD 0)
        * 100 ∧
    cfg.volume_spike_min
      ≤ volume_ratio_at s (now - cfg.window_size_secs) ∧
    is_new_high now s 300 = true := by
  unfold detect_pump at h
  dsimp only at h
  iterate 6 (all_goals try split at h)
  all_goals try exact Option.noConfusion h
  rename_i hlen hpct hvr hhigh
  exact ⟨by omega, not_lt.mp hpct, not_lt.mp hvr, hhigh⟩

/-- Shape of one `detect` call's output: a momentum prefix of at most
one alert (pump, else dump) followed by at most one range-machine
alert. -/
theorem detect_output_cases (cfg : DetectionConfig) (now : Timestamp)
    (s : SymbolData) :
    ∃ ms rs, (detect cfg now s).2 = ms ++ rs ∧
      (ms = [] ∨ (∃ m, ms = [m] ∧ detect_pump cfg now s = some m) ∨
        (∃ m, ms = [m] ∧ detect_pump cfg now s = none ∧
          detect_dump cfg now s = some m)) ∧
      (rs = [] ∨ ∃ r, rs = [r] ∧
        (r.alert_type = AlertType.AccumulationDetected ∨
         r.alert_type = AlertType.DistributionDetected ∨
         r.alert_type = AlertType.LongSetupConfirmed ∨
         r.alert_type = AlertType.ShortSetupConfirmed)) := by
  rcases hp : detect_pump cfg now s with _ | m
  case some =>
    by_cases hemp : ({ s with state := MarketState.PumpDetected }
        : SymbolData).cvd_history.isEmpty
    · exact ⟨[m], [], by simp [detect, hp, hemp],
        Or.inr (Or.inl ⟨m, rfl, rfl⟩), Or.inl rfl⟩
    · rcases hacc : detect_accumulation cfg now
          { s with state := MarketState.PumpDetected } with _ | r
      · rcases hdist : detect_distribution cfg now
            { s with state := MarketState.PumpDetected } with _ | r
        · exact ⟨[m], [], by simp [detect, hp, hemp, hacc, hdist],
            Or.inr (Or.inl ⟨m, rfl, rfl⟩), Or.inl rfl⟩
        · exact ⟨[m], [r], by simp [detect, hp, hemp, hacc, hdist],
            Or.inr (Or.inl ⟨m, rfl, rfl⟩),
            Or.inr ⟨r, rfl, Or.inr (Or.inl
              (detect_distribution_type _ _ _ _ hdist))⟩⟩
      · exact ⟨[m], [r], by simp [detect, hp, hemp, hacc],
          Or.inr (Or.inl ⟨m, rfl, rfl⟩),
          Or.inr ⟨r, rfl, Or.inl (detect_accumulation_type _ _ _ _ hacc)⟩⟩
  case none =>
  rcases hd : detect_dump cfg now s with _ | m
  case some =>
    by_cases hemp : ({ s with state := MarketState.DumpDetected }
        : SymbolData).cvd_history.isEmpty
    · exact ⟨[m], [], by simp [detect, hp, hd, hemp],
        Or.inr (Or.inr ⟨m, rfl, rfl, rfl⟩), Or.inl rfl⟩
    · rcases hacc : detect_accumulation cfg now
          { s with state := MarketState.DumpDetected } with _ | r
      · rcases hdist : detect_distribution cfg now
            { s with state := MarketState.DumpDetected } with _ | r
        · exact ⟨[m], [], by simp [detect, hp, hd, hemp, hacc, hdist],
            Or.inr (Or.inr ⟨m, rfl, rfl, rfl⟩), Or.inl rfl⟩
        · exact ⟨[m], [r], by simp [detect, hp, hd, hemp, hacc, hdist],
            Or.inr (Or.inr ⟨m, rfl, rfl, rfl⟩),
            Or.inr ⟨r, rfl, Or.inr (Or.inl
              (detect_distribution_type _ _ _ _ hdist))⟩⟩
      · exact ⟨[m], [r], by simp [detect, hp, hd, hemp, hacc],
          Or.inr (Or.inr ⟨m, rfl, rfl, rfl⟩),
          Or.inr ⟨r, rfl, Or.inl (detect_accumulation_type _ _ _ _ hacc)⟩⟩
  case none =>
  by_cases hemp : s.cvd_history.isEmpty
  · exact ⟨[], [], by simp [detect, hp, hd, hemp], Or.inl rfl, Or.inl rfl⟩
  · rcases hstate : s.state with _ | _ | _ | _ | _ | _ | _
    case neg.Idle =>
      rcases hacc : detect_accumulation cfg now s with _ | r
      · rcases hdist : detect_distribution cfg now s with _ | r
        · exact ⟨[], [],
            by simp [detect, hp, hd, hemp, hstate, hacc, hdist],
            Or.inl rfl, Or.inl rfl⟩
        · exact ⟨[], [r],
            by simp [detect, hp, hd, hemp, hstate, hacc, hdist],
            Or.inl rfl, Or.inr ⟨r, rfl, Or.inr (Or.inl
              (detect_distribution_type _ _ _ _ hdist))⟩⟩
      · exact ⟨[], [r], by simp [detect, hp, hd, hemp, hstate, hacc],
          Or.inl rfl,
          Or.inr ⟨r, rfl, Or.inl (detect_accumulation_type _ _ _ _ hacc)⟩⟩
    case neg.PumpDetected =>
      rcases hacc : detect_accumulation cfg now s with _ | r
      · rcases hdist : detect_distribution cfg now s with _ | r
        · exact ⟨[], [],
            by simp [detect, hp, hd, hemp, hstate, hacc, hdist],
            Or.inl rfl, Or.inl rfl⟩
        · exact ⟨[], [r],
            by simp [detect, hp, hd, hemp, hstate, hacc, hdist],
            Or.inl rfl, Or.inr ⟨r, rfl, Or.inr (Or.inl
              (detect_distribution_type _ _ _ _ hdist))⟩⟩
      · exact ⟨[], [r], by simp [detect, hp, hd, hemp, hstate, hacc],
          Or.inl rfl,
          Or.inr ⟨r, rfl, Or.inl (detect_accumulation_type _ _ _ _ hacc)⟩⟩
    case neg.DumpDetected =>
      rcases hacc : detect_accumulation cfg now s with _ | r
      · rcases hdist : detect_distribution cfg now s with _ | r
        · exact ⟨[], [],
            by simp [detect, hp, hd, hemp, hstate, hacc, hdist],
            Or.inl rfl, Or.inl rfl⟩
        · exact ⟨[], [r],
            by simp [detect, hp, hd, hemp, hstate, hacc, hdist],
            Or.inl rfl, Or.inr ⟨r, rfl, Or.inr (Or.inl
              (detect_distribution_type _ _ _ _ hdist))⟩⟩
      · exact ⟨[], [r], by simp [detect, hp, hd, hemp, hstate, hacc],
          Or.inl rfl,
          Or.inr ⟨r, rfl, Or.inl (detect_accumulation_type _ _ _ _ hacc)⟩⟩
    case neg.Accumulation =>
      rcases hbl : detect_breakout_long cfg now
          { s with
            state := MarketState.Accumulation,
            accumulation_high := s.accumulation_high.map
              (fun h => max h s.price),
            accumulation_low := s.accumulation_low.map
              (fun l => min l s.price) } with _ | r
      · exact ⟨[], [], by simp [detect, hp, hd, hemp, hstate, hbl],
          Or.inl rfl, Or.inl rfl⟩
      · exact ⟨[], [r], by simp [detect, hp, hd, hemp, hstate, hbl],
          Or.inl rfl,
          Or.inr ⟨r, rfl, Or.inr (Or.inr (Or.inl
            (detect_breakout_long_type _ _ _ _ hbl)))⟩⟩
    case neg.Distribution =>
      rcases hbs : detect_breakdown_short cfg now
          { s with
            state := MarketState.Distribution,
            distribution_high := s.distribution_high.map
              (fun h => max h s.price),
            distribution_low := s.distribution_low.map
              (fun l => min l s.price) } with _ | r
      · exact ⟨[], [], by simp [detect, hp, hd, hemp, hstate, hbs],
          Or.inl rfl, Or.inl rfl⟩
      · exact ⟨[], [r], by simp [detect, hp, hd, hemp, hstate, hbs],
          Or.inl rfl,
          Or.inr ⟨r, rfl, Or.inr (Or.inr (Or.inr
            (detect_breakdown_short_type _ _ _ _ hbs)))⟩⟩
    case neg.BreakoutLong =>
      by_cases hreset : should_reset_state now s = true
      · exact ⟨[], [], by simp [detect, hp, hd, hemp, hstate, hreset],
          Or.inl rfl, Or.inl rfl⟩
      · exact ⟨[], [], by simp [detect, hp, hd, hemp, hstate, hreset],
          Or.inl rfl, Or.inl rfl⟩
    case neg.BreakdownShort =>
      by_cases hreset : should_reset_state now s = true
      · exact ⟨[], [], by simp [detect, hp, hd, hemp, hstate, hreset],
          Or.inl rfl, Or.inl rfl⟩
      · exact ⟨[], [], by simp [detect, hp, hd, hemp, hstate, hreset],
          Or.inl rfl, Or.inl rfl⟩

/-- Evaluation of `detect` on `sC5` at `t = 1000`: a pump alert fires
(the new-high check looks only at the last 300 seconds). -/
theorem detectC5_eval :
    detect dcfgC5 1000 sC5
      = ({ sC5 with state := .PumpDetected }, [aC5]) := by
  norm_num [detect, detect_pump, samples_from, volume_ratio_at,
    is_new_high, list_max?, dcfgC5, sC5, SymbolData.new, aC5, max_def]

/-- C5 counterexample: `detect` emits a PumpDetected alert for `sC5`
although the current price 150 is not within 0.1% of the maximum price
(200) over the configured `window_size_secs` window — the new-high
check uses a fixed 300-second window, not the configured one. -/
theorem pump_new_high_uses_fixed_window :
    (detect dcfgC5 1000 sC5).2.map (·.alert_type)
        = [AlertType.PumpDetected] ∧
    list_max? (samples_from sC5.price_window
        (1000 - dcfgC5.window_size_secs)) = some 200 ∧
    ¬ (sC5.price ≥ 200 * (999 / 1000)) := by
  refine ⟨by rw [detectC5_eval]; rfl, ?_,
    by norm_num [sC5, SymbolData.new]⟩
  norm_num [samples_from, list_max?, sC5, dcfgC5, SymbolData.new,
    max_def]

/-- C5 (amended): `detect` emits a PumpDetected alert only if the
configured recent window holds at least 10 price samples, the percent
change from the window's first price to the current price is at least
the pump threshold, the volume ratio is at least the spike-ratio
threshold, and the current price is within 0.1% of the maximum price
over the fixed 300-second window (not the configured window). -/
theorem pump_alert_conditions (cfg : DetectionConfig) (now : Timestamp)
    (s : SymbolData) (a : Alert) (ha : a ∈ (detect cfg now s).2)
    (hty : a.alert_type = AlertType.PumpDetected) :
    detect_pump cfg now s = some a ∧
    (10 ≤ (samples_from s.price_window (now - cfg.window_size_secs)).length ∧
      cfg.pump_threshold_pct
        ≤ ((s.price - (samples_from s.price_window
            (now - cfg.window_size_secs)).headD 0)
          / (samples_from s.price_window
              (now - cfg.window_size_secs)).headD 0) * 100 ∧
      cfg.volume_spike_min
        ≤ volume_ratio_at s (now - cfg.window_size_secs) ∧
      is_new_high now s 300 = true) := by
  obtain ⟨ms, rs, heq, hms, hrs⟩ := detect_output_cases cfg now s
  rw [heq] at ha
  rcases List.mem_append.mp ha with hin | hin
  · rcases hms with h | ⟨m, hmeq, hpm⟩ | ⟨m, hmeq, hpn, hdm⟩
    · subst h; simp at hin
    · subst hmeq
      have ham : a = m := by simpa using hin
      subst ham
      exact ⟨hpm, detect_pump_conditions cfg now s a hpm⟩
    · subst hmeq
      have ham : a = m := by simpa using hin
      subst ham
      have hdt := detect_dump_type cfg now s a hdm
      rw [hty] at hdt
      exact absurd hdt (by decide)
  · rcases hrs with h | ⟨r, hreq, htypes⟩
    · subst h; simp at hin
    · subst hreq
      have har : a = r := by simpa using hin
      subst har
      rcases htypes with h | h | h | h <;>
        (rw [hty] at h; exact absurd h (by decide))

/-- Witness for C5 (amended) at the concrete pump emission of `sC5`. -/
theorem pump_alert_conditions_witness :
    detect_pump dcfgC5 1000 sC5 = some aC5 ∧
    (10 ≤ (samples_from sC5.price_window
        (1000 - dcfgC5.window_size_secs)).length ∧
      dcfgC5.pump_threshold_pct
        ≤ ((sC5.price - (samples_from sC5.price_window
            (1000 - dcfgC5.window_size_secs)).headD 0)
          / (samples_from sC5.price_window
              (1000 - dcfgC5.window_size_secs)).headD 0) * 100 ∧
      dcfgC5.volume_spike_min
        ≤ volume_ratio_at sC5 (1000 - dcfgC5.window_size_secs) ∧
      is_new_high 1000 sC5 300 = true) :=
  pump_alert_conditions dcfgC5 1000 sC5 aC5
    (by rw [detectC5_eval]; simp) rfl

/-- C4 counterexample: one `detect` call on `sC4` returns both a
PumpDetected and an AccumulationDetected alert — the range-machine
branch runs even though a momentum alert fired in the same call. -/
theorem momentum_and_range_same_call :
    (detect dcfgC4 119 sC4).2.map (·.alert_type)
      = [AlertType.PumpDetected, AlertType.AccumulationDetected] := by
  norm_num [detect, detect_pump, detect_accumulation, samples_from,
    volume_ratio_at, cvd_slope_at, is_new_high, is_new_low, list_max?,
    list_min?, dcfgC4, sC4, SymbolData.new, max_def, min_def]

/-- C4 (amended): every `detect` call produces at most one momentum
(pump/dump) alert and at most one range-machine alert — hence at most
two alerts — but the range branch is not guarded by the momentum
outcome, so a call returning a momentum alert may also return a range
alert. -/
theorem detect_alert_counts (cfg : DetectionConfig) (now : Timestamp)
    (s : SymbolData) :
    (detect cfg now s).2.countP is_momentum ≤ 1 ∧
    (detect cfg now s).2.countP is_range_alert ≤ 1 ∧
    (detect cfg now s).2.length ≤ 2 := by
  obtain ⟨ms, rs, heq, hms, hrs⟩ := detect_output_cases cfg now s
  rw [heq]
  have hm : ms.countP is_momentum ≤ 1 ∧ ms.countP is_range_alert = 0 ∧
      ms.length ≤ 1 := by
    rcases hms with h | ⟨m, hmeq, hpm⟩ | ⟨m, hmeq, hpn, hdm⟩
    · subst h; simp
    · subst hmeq
      have hmt := detect_pump_type cfg now s m hpm
      simp [List.countP_cons, is_momentum, is_range_alert, hmt]
    · subst hmeq
      have hmt := detect_dump_type cfg now s m hdm
      simp [List.countP_cons, is_momentum, is_range_alert, hmt]
  have hr : rs.countP is_momentum = 0 ∧ rs.countP is_range_alert ≤ 1 ∧
      rs.length ≤ 1 := by
    rcases hrs with h | ⟨r, hreq, htypes⟩
    · subst h; simp
    · subst hreq
      rcases htypes with h | h | h | h <;>
        simp [List.countP_cons, is_momentum, is_range_alert, h]
  rw [List.countP_append, List.countP_append, List.length_append]
  omega

set_option maxRecDepth 8192 in
theorem eC3_step1 :
    process_ticker { config := cfgBase, symbols := [] } batch1 100
      = { config := cfgBase, symbols := [("AUSDT", s1lit)] } := by
  have hs : (process_ticker { config := cfgBase, symbols := [] }
      batch1 100).symbols = [("AUSDT", s1lit)] := by decide
  have hc : (process_ticker { config := cfgBase, symbols := [] }
      batch1 100).config = cfgBase := rfl
  calc process_ticker { config := cfgBase, symbols := [] } batch1 100
      = { config := (process_ticker { config := cfgBase, symbols := [] }
            batch1 100).config,
          symbols := (process_ticker { config := cfgBase, symbols := [] }
            batch1 100).symbols } := rfl
    _ = { config := cfgBase, symbols := [("AUSDT", s1lit)] } := by
        rw [hs, hc]

theorem eC3_step2 :
    rescore_symbols { config := cfgBase, symbols := [("AUSDT", s1lit)] }
        100 log10zero
      = ({ config := cfgBase, symbols := [("AUSDT", s2lit)] },
         ["AUSDT"]) := by
  norm_num [rescore_symbols, calculate_score, calculate_volume_score,
    calculate_volatility_score, calculate_activity_score, clampQ,
    assign_tier, select_tier1_symbols, List.mergeSort, cfgBase,
    s1lit, s2lit, log10zero, List.contains]

theorem eC3_step3 :
    process_trade { config := cfgBase, symbols := [("AUSDT", s2lit)] }
        trC3 101
      = ({ config := cfgBase, symbols := [("AUSDT", s3lit)] }, []) := by
  norm_num [process_trade, lookup_symbol, set_symbol, update_cvd,
    push_trim, detect, detect_pump, detect_dump, detect_accumulation,
    detect_distribution, samples_from, volume_ratio_at, cvd_slope_at,
    price_trend_at, is_new_high, is_new_low, list_max?, list_min?,
    cfgBase, s1lit, s2lit, s3lit, trC3, max_def, min_def,
    List.replicate, List.find?]

theorem eC3_step4 :
    process_trade { config := cfgBase, symbols := [("AUSDT", s3lit)] }
        trC3 102
      = ({ config := cfgBase, symbols := [("AUSDT", s4lit)] },
         [accAlertC3]) := by
  norm_num [process_trade, lookup_symbol, set_symbol, update_cvd,
    push_trim, detect, detect_pump, detect_dump, detect_accumulation,
    detect_distribution, samples_from, volume_ratio_at, cvd_slope_at,
    price_trend_at, is_new_high, is_new_low, list_max?, list_min?,
    cfgBase, s1lit, s2lit, s3lit, s4lit, accAlertC3, trC3, max_def,
    min_def, List.replicate, List.find?]

set_option maxRecDepth 8192 in
theorem eC3_step5 :
    process_ticker { config := cfgBase, symbols := [("AUSDT", s4lit)] }
        [tkC3b] 103
      = { config := cfgBase, symbols := [("AUSDT", s5lit)] } := by
  have hs : (process_ticker
      { config := cfgBase, symbols := [("AUSDT", s4lit)] }
      [tkC3b] 103).symbols = [("AUSDT", s5lit)] := by decide
  have hc : (process_ticker
      { config := cfgBase, symbols := [("AUSDT", s4lit)] }
      [tkC3b] 103).config = cfgBase := rfl
  calc process_ticker { config := cfgBase, symbols := [("AUSDT", s4lit)] }
        [tkC3b] 103
      = { config := (process_ticker
            { config := cfgBase, symbols := [("AUSDT", s4lit)] }
            [tkC3b] 103).config,
          symbols := (process_ticker
            { config := cfgBase, symbols := [("AUSDT", s4lit)] }
            [tkC3b] 103).symbols } := rfl
    _ = { config := cfgBase, symbols := [("AUSDT", s5lit)] } := by
        rw [hs, hc]

theorem eC3_step6 :
    rescore_symbols { config := cfgBase, symbols := [("AUSDT", s5lit)] }
        103 log10zero
      = ({ config := cfgBase, symbols := [("AUSDT", s6lit)] }, []) := by
  norm_num [rescore_symbols, calculate_score, calculate_volume_score,
    calculate_volatility_score, calculate_activity_score, clampQ,
    assign_tier, select_tier1_symbols, List.mergeSort, cfgBase,
    s1lit, s2lit, s3lit, s4lit, s5lit, s6lit, log10zero,
    List.contains]
  decide

/-- C3 counterexample: in the reachable engine state `eC3` (symbol
promoted to Tier1, accumulation detected, then demoted by a rescore)
the snapshot's state is `Idle` while `accumulation_high` is still
`some 102`: the auxiliary fields are not `Some` iff the state is
`Accumulation`, and the rescore transition away did not clear them. -/
theorem accumulation_fields_outlive_state :
    ((lookup_symbol eC3 "AUSDT").map
        (fun s => (s.state, s.accumulation_high)))
      = some (MarketState.Idle, some 102) := by
  have he : eC3 = { config := cfgBase, symbols := [("AUSDT", s6lit)] } := by
    show (rescore_symbols (process_ticker ((process_trade ((process_trade
      ((rescore_symbols (process_ticker
          { config := cfgBase, symbols := [] } batch1 100)
        100 log10zero).1) trC3 101).1) trC3 102).1) [tkC3b] 103)
      103 log10zero).1 = _
    rw [eC3_step1, eC3_step2]
    show (rescore_symbols (process_ticker ((process_trade ((process_trade
      { config := cfgBase, symbols := [("AUSDT", s2lit)] }
      trC3 101).1) trC3 102).1) [tkC3b] 103) 103 log10zero).1 = _
    rw [eC3_step3]
    show (rescore_symbols (process_ticker ((process_trade
      { config := cfgBase, symbols := [("AUSDT", s3lit)] }
      trC3 102).1) [tkC3b] 103) 103 log10zero).1 = _
    rw [eC3_step4]
    show (rescore_symbols (process_ticker
      { config := cfgBase, symbols := [("AUSDT", s4lit)] }
      [tkC3b] 103) 103 log10zero).1 = _
    rw [eC3_step5, eC3_step6]
  rw [he]
  decide

theorem aux_inv_new (k : String) (now : Timestamp) :
    aux_fields_inv (SymbolData.new k now) := by
  simp [aux_fields_inv, SymbolData.new]

theorem aux_inv_ticker (cfg : Config) (now : Timestamp) (s : SymbolData)
    (t : TickerData) (h : aux_fields_inv s) :
    aux_fields_inv (update_symbol_from_ticker cfg now s t) := by
  simpa [aux_fields_inv, update_symbol_from_ticker] using h

theorem aux_inv_cvd (cfg : Config) (now : Timestamp) (s : SymbolData)
    (tr : TradeData) (h : aux_fields_inv s) :
    aux_fields_inv (update_cvd cfg now s tr) := by
  unfold update_cvd
  dsimp only
  split
  · exact h
  · simpa [aux_fields_inv] using h

/-- `Detector::detect` preserves the aux-field relation: entering
`Accumulation`/`Distribution` populates the fields, the range updates
keep them populated, and the only clearing transition also resets the
state to `Idle`. -/
theorem aux_inv_detect (cfg : DetectionConfig) (now : Timestamp)
    (s : SymbolData) (h : aux_fields_inv s) :
    aux_fields_inv (detect cfg now s).1 := by
  rcases hp : detect_pump cfg now s with _ | m
  case some =>
    by_cases hemp : ({ s with state := MarketState.PumpDetected }
        : SymbolData).cvd_history.isEmpty
    · simp [detect, hp, hemp, aux_fields_inv]
    · rcases hacc : detect_accumulation cfg now
          { s with state := MarketState.PumpDetected } with _ | r
      · rcases hdist : detect_distribution cfg now
            { s with state := MarketState.PumpDetected } with _ | r
        · simp [detect, hp, hemp, hacc, hdist, aux_fields_inv]
        · simp [detect, hp, hemp, hacc, hdist, aux_fields_inv]
      · simp [detect, hp, hemp, hacc, aux_fields_inv]
  case none =>
  rcases hd : detect_dump cfg now s with _ | m
  case some =>
    by_cases hemp : ({ s with state := MarketState.DumpDetected }
        : SymbolData).cvd_history.isEmpty
    · simp [detect, hp, hd, hemp, aux_fields_inv]
    · rcases hacc : detect_accumulation cfg now
          { s with state := MarketState.DumpDetected } with _ | r
      · rcases hdist : detect_distribution cfg now
            { s with state := MarketState.DumpDetected } with _ | r
        · simp [detect, hp, hd, hemp, hacc, hdist, aux_fields_inv]
        · simp [detect, hp, hd, hemp, hacc, hdist, aux_fields_inv]
      · simp [detect, hp, hd, hemp, hacc, aux_fields_inv]
  case none =>
  by_cases hemp : s.cvd_history.isEmpty
  · simpa [detect, hp, hd, hemp] using h
  · rcases hstate : s.state with _ | _ | _ | _ | _ | _ | _
    case neg.Idle =>
      rcases hacc : detect_accumulation cfg now s with _ | r
      · rcases hdist : detect_distribution cfg now s with _ | r
        · simp [detect, hp, hd, hemp, hstate, hacc, hdist,
            aux_fields_inv]
        · simp [detect, hp, hd, hemp, hstate, hacc, hdist,
            aux_fields_inv]
      · simp [detect, hp, hd, hemp, hstate, hacc, aux_fields_inv]
    case neg.PumpDetected =>
      rcases hacc : detect_accumulation cfg now s with _ | r
      · rcases hdist : detect_distribution cfg now s with _ | r
        · simp [detect, hp, hd, hemp, hstate, hacc, hdist,
            aux_fields_inv]
        · simp [detect, hp, hd, hemp, hstate, hacc, hdist,
            aux_fields_inv]
      · simp [detect, hp, hd, hemp, hstate, hacc, aux_fields_inv]
    case neg.DumpDetected =>
      rcases hacc : detect_accumulation cfg now s with _ | r
      · rcases hdist : detect_distribution cfg now s with _ | r
        · simp [detect, hp, hd, hemp, hstate, hacc, hdist,
            aux_fields_inv]
        · simp [detect, hp, hd, hemp, hstate, hacc, hdist,
            aux_fields_inv]
      · simp [detect, hp, hd, hemp, hstate, hacc, aux_fields_inv]
    case neg.Accumulation =>
      have hh := h.1 (Or.inl hstate)
      rcases hbl : detect_breakout_long cfg now
          { s with
            state := MarketState.Accumulation,
            accumulation_high := s.accumulation_high.map
              (fun h => max h s.price),
            accumulation_low := s.accumulation_low.map
              (fun l => min l s.price) } with _ | r
      · simp [detect, hp, hd, hemp, hstate, hbl, aux_fields_inv,
          Option.isSome_map, hh.1, hh.2.1, hh.2.2]
      · simp [detect, hp, hd, hemp, hstate, hbl, aux_fields_inv,
          Option.isSome_map, hh.1, hh.2.1, hh.2.2]
    case neg.Distribution =>
      have hh := h.2 (Or.inl hstate)
      rcases hbs : detect_breakdown_short cfg now
          { s with
            state := MarketState.Distribution,
            distribution_high := s.distribution_high.map
              (fun h => max h s.price),
            distribution_low := s.distribution_low.map
              (fun l => min l s.price) } with _ | r
      · simp [detect, hp, hd, hemp, hstate, hbs, aux_fields_inv,
          Option.isSome_map, hh.1, hh.2.1, hh.2.2]
      · simp [detect, hp, hd, hemp, hstate, hbs, aux_fields_inv,
          Option.isSome_map, hh.1, hh.2.1, hh.2.2]
    case neg.BreakoutLong =>
      by_cases hreset : should_reset_state now s = true
      · simp [detect, hp, hd, hemp, hstate, hreset, aux_fields_inv]
      · have hh := h.1 (Or.inr hstate)
        simp [detect, hp, hd, hemp, hstate, hreset, aux_fields_inv,
          hh.1, hh.2.1, hh.2.2]
    case neg.BreakdownShort =>
      by_cases hreset : should_reset_state now s = true
      · simp [detect, hp, hd, hemp, hstate, hreset, aux_fields_inv]
      · have hh := h.2 (Or.inr hstate)
        simp [detect, hp, hd, hemp, hstate, hreset, aux_fields_inv,
          hh.1, hh.2.1, hh.2.2]

theorem upsert_symbol_inv (k : String) (now : Timestamp)
    (f : SymbolData → SymbolData)
    (hf : ∀ s, aux_fields_inv s → aux_fields_inv (f s))
    (hnew : aux_fields_inv (SymbolData.new k now)) :
    ∀ (l : List (String × SymbolData)),
      (∀ p ∈ l, aux_fields_inv p.2) →
      ∀ p ∈ upsert_symbol l k now f, aux_fields_inv p.2
  | [], _, p, hp => by
    simp only [upsert_symbol, List.mem_singleton] at hp
    subst hp
    exact hf _ hnew
  | (k₀, s₀) :: rest, hl, p, hp => by
    simp only [upsert_symbol] at hp
    split at hp
    · rcases List.mem_cons.mp hp with hp | hp
      · subst hp
        exact hf _ (hl (k₀, s₀) (List.mem_cons_self _ _))
      · exact hl p (List.mem_cons_of_mem _ hp)
    · rcases List.mem_cons.mp hp with hp | hp
      · subst hp
        exact hl (k₀, s₀) (List.mem_cons_self _ _)
      · exact upsert_symbol_inv k now f hf hnew rest
          (fun q hq => hl q (List.mem_cons_of_mem _ hq)) p hp

theorem process_ticker_inv (now : Timestamp) :
    ∀ (tickers : List TickerData) (e : SignalEngine),
      (∀ p ∈ e.symbols, aux_fields_inv p.2) →
      ∀ p ∈ (process_ticker e tickers now).symbols, aux_fields_inv p.2
  | [], e, he => by simpa [process_ticker] using he
  | t :: ts, e, he => by
    have hstep : process_ticker e (t :: ts) now
        = process_ticker
            (if passes_hard_filters e.config.filters t then
              { e with symbols := (upsert_symbol e.symbols t.symbol now
                (fun s => update_symbol_from_ticker e.config now s t)) }
            else e) ts now := by
      simp only [process_ticker, List.foldl_cons]
    rw [hstep]
    apply process_ticker_inv now ts
    split
    · intro p hp
      exact upsert_symbol_inv t.symbol now _
        (fun s hs => aux_inv_ticker e.config now s t hs)
        (aux_inv_new t.symbol now) e.symbols he p hp
    · exact he

theorem set_symbol_mem (l : List (String × SymbolData)) (k : String)
    (v : SymbolData) (p : String × SymbolData)
    (hp : p ∈ set_symbol l k v) : p ∈ l ∨ p.2 = v := by
  simp only [set_symbol, List.mem_map] at hp
  obtain ⟨q, hq, heq⟩ := hp
  by_cases hk : (q.1 == k) = true
  · rw [if_pos hk] at heq
    right
    rw [← heq]
  · rw [if_neg hk] at heq
    left
    rw [← heq]
    exact hq

theorem process_trade_inv (e : SignalEngine) (tr : TradeData)
    (now : Timestamp) (he : ∀ p ∈ e.symbols, aux_fields_inv p.2) :
    ∀ p ∈ (process_trade e tr now).1.symbols, aux_fields_inv p.2 := by
  intro p hp
  unfold process_trade at hp
  cases hfind : lookup_symbol e tr.symbol with
  | none =>
    rw [hfind] at hp
    exact he p hp
  | some s0 =>
    rw [hfind] at hp
    dsimp only at hp
    by_cases htier : s0.tier = Tier.Tier1
    · rw [if_neg (not_not_intro htier)] at hp
      dsimp only at hp
      rcases set_symbol_mem _ _ _ p hp with hin | hval
      · exact he p hin
      · rw [hval]
        have hs0 : aux_fields_inv s0 := by
          unfold lookup_symbol at hfind
          cases hfe : e.symbols.find? (fun x => x.1 == tr.symbol) with
          | none => rw [hfe] at hfind; simp at hfind
          | some q =>
            rw [hfe] at hfind
            simp only [Option.map_some'] at hfind
            have hq := List.mem_of_find?_eq_some hfe
            have hinv := he q hq
            rwa [Option.some.inj hfind] at hinv
        exact aux_inv_detect e.config.detection now _
          (aux_inv_cvd e.config now s0 tr hs0)
    · rw [if_pos htier] at hp
      exact he p hp

theorem rescore_symbols_inv (e : SignalEngine) (now : Timestamp)
    (log10 : ℚ → ℚ) (he : ∀ p ∈ e.symbols, aux_fields_inv p.2) :
    ∀ p ∈ (rescore_symbols e now log10).1.symbols, aux_fields_inv p.2 := by
  intro p hp
  simp only [rescore_symbols] at hp
  obtain ⟨q, hq, heq⟩ := List.mem_map.mp hp
  obtain ⟨q0, hq0, heq0⟩ := List.mem_map.mp hq
  have hq0mem : q0 ∈ e.symbols := (List.mem_filter.mp hq0).1
  have hq0inv : aux_fields_inv q0.2 := he q0 hq0mem
  have hqinv : aux_fields_inv q.2 := by
    rw [← heq0]
    simpa [aux_fields_inv] using hq0inv
  rw [← heq]
  dsimp only
  split
  · simpa [aux_fields_inv] using hqinv
  · split
    · simp [aux_fields_inv]
    · simpa [aux_fields_inv] using hqinv

theorem engine_aux_inv (cfg : Config) (ops : List EngOp) :
    ∀ p ∈ (run_engine cfg ops).symbols, aux_fields_inv p.2 := by
  suffices h : ∀ (ops' : List EngOp) (e : SignalEngine),
      (∀ p ∈ e.symbols, aux_fields_inv p.2) →
      ∀ p ∈ (ops'.foldl EngOp.apply e).symbols, aux_fields_inv p.2 by
    apply h
    simp [SignalEngine.new]
  intro ops'
  induction ops' with
  | nil => intro e he; simpa using he
  | cons op rest ih =>
    intro e he
    rw [List.foldl_cons]
    apply ih
    cases op with
    | tick tickers now => exact process_ticker_inv now tickers e he
    | trade t now => exact process_trade_inv e t now he
    | rescoreAt now log10 => exact rescore_symbols_inv e now log10 he

/-- C3 (amended): for every reachable SymbolData (after any sequence of
ProcessTicker, ProcessTrade and RescoreSymbols calls), the accumulation
auxiliary fields are `Some` whenever the state is `Accumulation` or
`BreakoutLong`, and the distribution auxiliary fields are `Some`
whenever the state is `Distribution` or `BreakdownShort`.  The converse
does not hold: the fields are cleared only by the breakout/breakdown
timeout reset, so they can remain `Some` in other states (see the
counterexample), and they survive rescore demotions. -/
theorem aux_fields_reachable_inv (cfg : Config) (ops : List EngOp)
    (k : String) (s : SymbolData)
    (hmem : (k, s) ∈ (run_engine cfg ops).symbols) : aux_fields_inv s :=
  engine_aux_inv cfg ops (k, s) hmem

/-- Witness for C3 (amended): the snapshot created by one ticker batch
satisfies the aux-field relation. -/
theorem aux_fields_reachable_inv_witness :
    ("AUSDT", sA) ∈ (run_engine cfgBase [EngOp.tick [tkA] 100]).symbols ∧
      aux_fields_inv sA :=
  ⟨by decide, aux_fields_reachable_inv cfgBase [EngOp.tick [tkA] 100]
    "AUSDT" sA (by decide)⟩

/-- Evaluation of a rescore on the score-0 engine `eW1`: nothing is
selected and the snapshot (already in its reset shape) is kept with
tier Ignored. -/
theorem rescoreW1_eval :
    rescore_symbols eW1 100 (fun _ => 0) = (eW1, []) := by
  norm_num [rescore_symbols, eW1, cfgBase, SymbolData.new,
    calculate_score, calculate_volume_score, calculate_volatility_score,
    calculate_activity_score, clampQ, assign_tier,
    select_tier1_symbols, List.mergeSort]

/-- Witness for C1 (amended) on engine `eW1`: the unselected snapshot
ends with tier `assign_tier` of its score, and — the rule yielding
Ignored — zero CVD, empty history, Idle state. -/
theorem rescore_unselected_witness :
    (SymbolData.new "AUSDT" 100).tier
        = assign_tier eW1.config.scoring (SymbolData.new "AUSDT" 100).score ∧
    (assign_tier eW1.config.scoring (SymbolData.new "AUSDT" 100).score
        ≠ Tier.Tier1 →
      (SymbolData.new "AUSDT" 100).cvd = 0 ∧
        (SymbolData.new "AUSDT" 100).cvd_history = [] ∧
        (SymbolData.new "AUSDT" 100).state = MarketState.Idle) :=
  rescore_unselected eW1 100 (fun _ => 0) "AUSDT"
    (SymbolData.new "AUSDT" 100)
    (by rw [rescoreW1_eval]; simp [eW1]) (by rw [rescoreW1_eval]; simp)

end Krypt
